import Mathlib

/-!
Shallow embedding of the lip-sync subsystem of the interactive 3D baby
character repository (src/app.js, src/phoneme-detector.js,
src/deploy/phoneme-detector.js), together with proofs settling the frozen
claims about its natural-language specification.

Numbers that are IEEE doubles in the source are modelled as rationals
(`ℚ`); byte-valued audio spectra (`Uint8Array`) are modelled as `List ℕ`
with the bound `≤ 255` carried as a hypothesis where it matters.
-/

namespace BabySync

/-- A viseme descriptor as stored in the deploy `PhonemeDetector.visemeSystem`
table: primary and optional secondary morph-target name plus a base
intensity. -/
structure VisemeDescriptor where
  primary : String
  secondary : Option String
  intensity : ℚ
deriving DecidableEq

/-- Association-list lookup keyed by `String`, modelling a JS object
property access `table[key]` (returns `undefined`, i.e. `none`, when the
key is absent). -/
def alookup {α : Type} (l : List (String × α)) (key : String) : Option α :=
  (l.find? (fun p => p.1 = key)).map Prod.snd

/-- The deploy `PhonemeDetector.visemeSystem` table (src/deploy/phoneme-detector.js
lines 47-94), transcribed entry by entry. -/
def visemeSystem : List (String × VisemeDescriptor) :=
  [ ("AA", ⟨"Ah", some "Jaw_Open", 8/10⟩),
    ("AE", ⟨"AE", some "Jaw_Open", 7/10⟩),
    ("AH", ⟨"Ah", some "Jaw_Open", 6/10⟩),
    ("AO", ⟨"Oh", some "Jaw_Open", 8/10⟩),
    ("AW", ⟨"W_OO", some "Mouth_Pucker", 9/10⟩),
    ("AY", ⟨"Ah", some "Mouth_Stretch_L", 8/10⟩),
    ("EH", ⟨"EE", some "Jaw_Open", 6/10⟩),
    ("ER", ⟨"Er", some "Mouth_Press_L", 7/10⟩),
    ("EY", ⟨"EE", some "Mouth_Stretch_L", 8/10⟩),
    ("IH", ⟨"IH", some "Jaw_Open", 5/10⟩),
    ("IY", ⟨"EE", some "Mouth_Stretch_L", 9/10⟩),
    ("OW", ⟨"Oh", some "Mouth_Pucker", 8/10⟩),
    ("OY", ⟨"W_OO", some "Mouth_Pucker", 9/10⟩),
    ("UH", ⟨"W_OO", some "Mouth_Pucker", 7/10⟩),
    ("UW", ⟨"W_OO", some "Mouth_Pucker", 9/10⟩),
    ("B", ⟨"B_M_P", some "Mouth_Close", 9/10⟩),
    ("CH", ⟨"Ch_J", some "Mouth_Pucker", 8/10⟩),
    ("D", ⟨"T_L_D_N", some "Jaw_Open", 6/10⟩),
    ("DH", ⟨"TH", some "Mouth_Stretch_L", 7/10⟩),
    ("F", ⟨"F_V", some "Mouth_Press_L", 8/10⟩),
    ("G", ⟨"K_G_H_NG", some "Jaw_Open", 7/10⟩),
    ("HH", ⟨"K_G_H_NG", some "Jaw_Open", 5/10⟩),
    ("JH", ⟨"Ch_J", some "Mouth_Pucker", 8/10⟩),
    ("K", ⟨"K_G_H_NG", some "Jaw_Open", 7/10⟩),
    ("L", ⟨"T_L_D_N", some "Tongue_Bulge_L", 6/10⟩),
    ("M", ⟨"B_M_P", some "Mouth_Close", 9/10⟩),
    ("N", ⟨"T_L_D_N", some "Jaw_Open", 6/10⟩),
    ("NG", ⟨"K_G_H_NG", some "Jaw_Open", 7/10⟩),
    ("P", ⟨"B_M_P", some "Mouth_Close", 9/10⟩),
    ("R", ⟨"R", some "Mouth_Pucker", 7/10⟩),
    ("S", ⟨"S_Z", some "Mouth_Stretch_L", 8/10⟩),
    ("SH", ⟨"S_Z", some "Mouth_Pucker", 8/10⟩),
    ("T", ⟨"T_L_D_N", some "Jaw_Open", 6/10⟩),
    ("TH", ⟨"TH", some "Mouth_Stretch_L", 7/10⟩),
    ("V", ⟨"F_V", some "Mouth_Press_L", 8/10⟩),
    ("W", ⟨"W_OO", some "Mouth_Pucker", 9/10⟩),
    ("Y", ⟨"EE", some "Mouth_Stretch_L", 7/10⟩),
    ("Z", ⟨"S_Z", some "Mouth_Stretch_L", 8/10⟩),
    ("ZH", ⟨"S_Z", some "Mouth_Pucker", 8/10⟩),
    ("rest", ⟨"Ah", none, 3/10⟩),
    ("neutral", ⟨"Ah", none, 2/10⟩) ]

/-- Deploy `PhonemeDetector.getVisemeData` (lines 698-700):
`this.visemeSystem[phoneme] || this.visemeSystem['rest']`. -/
def pdGetVisemeData (phoneme : String) : VisemeDescriptor :=
  match alookup visemeSystem phoneme with
  | some v => v
  | none => ⟨"Ah", none, 3/10⟩

/-- Deploy `PhonemeDetector.phonemeToMorphTarget` legacy map (lines 97-107). -/
def phonemeToMorphTarget : List (String × String) :=
  [ ("AA", "Ah"), ("AE", "AE"), ("AH", "Ah"), ("AO", "Oh"), ("AW", "W_OO"),
    ("AY", "Ah"), ("EH", "EE"), ("ER", "Er"), ("EY", "EE"), ("IH", "IH"),
    ("IY", "EE"), ("OW", "Oh"), ("OY", "W_OO"), ("UH", "W_OO"), ("UW", "W_OO"),
    ("B", "B_M_P"), ("CH", "Ch_J"), ("D", "T_L_D_N"), ("DH", "TH"), ("F", "F_V"),
    ("G", "K_G_H_NG"), ("HH", "K_G_H_NG"), ("JH", "Ch_J"), ("K", "K_G_H_NG"),
    ("L", "T_L_D_N"), ("M", "B_M_P"), ("N", "T_L_D_N"), ("NG", "K_G_H_NG"),
    ("P", "B_M_P"), ("R", "R"), ("S", "S_Z"), ("SH", "S_Z"), ("T", "T_L_D_N"),
    ("TH", "TH"), ("V", "F_V"), ("W", "W_OO"), ("Y", "EE"), ("Z", "S_Z"),
    ("ZH", "S_Z"), ("rest", "Ah"), ("neutral", "Ah") ]

/-- Deploy `PhonemeDetector.getPhonemeDuration` table (lines 545-563),
with the `|| 0.18` fallback. -/
def getPhonemeDuration (phoneme : String) : ℚ :=
  let durations : List (String × ℚ) :=
    [ ("AA", 20/100), ("AE", 18/100), ("AH", 18/100), ("AO", 20/100), ("AW", 25/100),
      ("AY", 20/100), ("EH", 18/100), ("ER", 20/100), ("EY", 20/100), ("IH", 18/100),
      ("IY", 20/100), ("OW", 20/100), ("OY", 25/100), ("UH", 18/100), ("UW", 20/100),
      ("B", 15/100), ("CH", 18/100), ("D", 15/100), ("DH", 15/100), ("F", 18/100),
      ("G", 15/100), ("HH", 15/100), ("JH", 18/100), ("K", 15/100), ("L", 15/100),
      ("M", 18/100), ("N", 15/100), ("NG", 18/100), ("P", 15/100), ("R", 15/100),
      ("S", 18/100), ("SH", 18/100), ("T", 15/100), ("TH", 15/100), ("V", 15/100),
      ("W", 15/100), ("Y", 15/100), ("Z", 15/100), ("ZH", 18/100),
      ("rest", 8/100), ("neutral", 8/100) ]
  match alookup durations phoneme with
  | some d => d
  | none => 18/100

/-- Deploy `PhonemeDetector.getAverageFrequency` (lines 459-467): averages
`data[i]` for `start ≤ i < end` skipping indices past the end of the
array, returning 0 when no index is valid.  The loop touches exactly the
elements of `(data.take e).drop s`. -/
def getAverageFrequency (data : List ℕ) (s e : ℕ) : ℚ :=
  if ((data.take e).drop s).length = 0 then 0
  else ((((data.take e).drop s).sum : ℕ) : ℚ) / ((data.take e).drop s).length

/-- Deploy `PhonemeDetector.classifyVisemeFromFrequencies` (lines 378-416):
fixed-priority decision ladder over the four band averages; returns
(primary, secondary, intensity). -/
def classifyVisemeFromFrequencies (low mid high ultra total : ℚ) :
    String × Option String × ℚ :=
  if low > 30 ∧ mid > 25 then
    if high > 20 then ("EE", some "Mouth_Stretch_L", 8/10)
    else ("Ah", some "Jaw_Open", 7/10)
  else if high > 25 ∨ ultra > 20 then
    if ultra > 25 then ("S_Z", some "Mouth_Stretch_L", 9/10)
    else if high > 30 then ("F_V", some "Mouth_Press_L", 8/10)
    else ("T_L_D_N", some "Jaw_Open", 6/10)
  else if low > 40 ∧ mid < 15 then ("B_M_P", some "Mouth_Close", 9/10)
  else if mid > 30 ∧ low > 20 ∧ high < 15 then ("K_G_H_NG", some "Jaw_Open", 7/10)
  else if total < 10 then ("Ah", none, 2/10)
  else ("Ah", none, 3/10)

/-- The viseme sample produced on each analysis tick (primary/secondary
morph-target names, intensity, confidence). -/
structure DetectedViseme where
  primary : String
  secondary : Option String
  intensity : ℚ
  confidence : ℚ
deriving DecidableEq

/-- Deploy `PhonemeDetector.detectVisemeFromAudio` (lines 350-367): band
averages over bins [0,50), [50,150), [150,300), [300,500), overall
intensity as their mean, classification, and
`confidence = min(1, totalIntensity / 50)`. -/
def detectVisemeFromAudio (data : List ℕ) : DetectedViseme :=
  let low := getAverageFrequency data 0 50
  let mid := getAverageFrequency data 50 150
  let high := getAverageFrequency data 150 300
  let ultra := getAverageFrequency data 300 500
  let total := (low + mid + high + ultra) / 4
  let v := classifyVisemeFromFrequencies low mid high ultra total
  { primary := v.1, secondary := v.2.1, intensity := v.2.2,
    confidence := min 1 (total / 50) }

/-- One entry of `ProfessionalLipSyncSystem.audioVisemeMapping`
(src/phoneme-detector.js lines 44-321): primary/secondary morph targets,
frequency range in Hz, intensity-curve tag and jaw intensity.  Note the
entries carry no `intensity` field. -/
structure AudioVisemeEntry where
  primary : String
  secondary : Option String
  frequencyRange : ℚ × ℚ
  intensityCurve : String
  jawIntensity : ℚ
deriving DecidableEq

/-- `ProfessionalLipSyncSystem.audioVisemeMapping`, transcribed entry by
entry. -/
def audioVisemeMapping : List (String × AudioVisemeEntry) :=
  [ ("AA", ⟨"Ah", some "Jaw_Open", (500, 1200), "bell", 8/10⟩),
    ("AE", ⟨"AE", some "Jaw_Open", (600, 1500), "bell", 7/10⟩),
    ("AH", ⟨"Ah", some "Jaw_Open", (400, 1000), "bell", 6/10⟩),
    ("AO", ⟨"Oh", some "Jaw_Open", (400, 800), "bell", 8/10⟩),
    ("AW", ⟨"W_OO", some "Mouth_Pucker", (300, 700), "bell", 6/10⟩),
    ("AY", ⟨"Ah", some "Mouth_Stretch_L", (500, 1200), "bell", 7/10⟩),
    ("EH", ⟨"EE", some "Jaw_Open", (700, 1800), "bell", 5/10⟩),
    ("ER", ⟨"Er", some "Mouth_Press_L", (400, 1000), "bell", 4/10⟩),
    ("EY", ⟨"EE", some "Mouth_Stretch_L", (800, 2000), "bell", 6/10⟩),
    ("IH", ⟨"IH", some "Jaw_Open", (800, 2000), "bell", 4/10⟩),
    ("IY", ⟨"EE", some "Mouth_Stretch_L", (1000, 2500), "bell", 5/10⟩),
    ("OW", ⟨"Oh", some "Mouth_Pucker", (400, 800), "bell", 7/10⟩),
    ("OY", ⟨"W_OO", some "Mouth_Pucker", (300, 700), "bell", 6/10⟩),
    ("UH", ⟨"W_OO", some "Mouth_Pucker", (300, 600), "bell", 5/10⟩),
    ("UW", ⟨"W_OO", some "Mouth_Pucker", (200, 500), "bell", 6/10⟩),
    ("B", ⟨"B_M_P", some "Mouth_Close", (100, 400), "sharp", 3/10⟩),
    ("CH", ⟨"Ch_J", some "Mouth_Pucker", (2000, 4000), "sharp", 2/10⟩),
    ("D", ⟨"T_L_D_N", some "Jaw_Open", (200, 600), "sharp", 4/10⟩),
    ("DH", ⟨"TH", some "Mouth_Stretch_L", (100, 300), "smooth", 3/10⟩),
    ("F", ⟨"F_V", some "Mouth_Press_L", (3000, 6000), "smooth", 2/10⟩),
    ("G", ⟨"K_G_H_NG", some "Jaw_Open", (200, 600), "sharp", 5/10⟩),
    ("HH", ⟨"K_G_H_NG", some "Jaw_Open", (100, 400), "smooth", 3/10⟩),
    ("JH", ⟨"Ch_J", some "Mouth_Pucker", (2000, 4000), "sharp", 2/10⟩),
    ("K", ⟨"K_G_H_NG", some "Jaw_Open", (200, 600), "sharp", 5/10⟩),
    ("L", ⟨"T_L_D_N", some "Tongue_Bulge_L", (300, 800), "smooth", 4/10⟩),
    ("M", ⟨"B_M_P", some "Mouth_Close", (100, 400), "smooth", 3/10⟩),
    ("N", ⟨"T_L_D_N", some "Jaw_Open", (200, 600), "smooth", 4/10⟩),
    ("NG", ⟨"K_G_H_NG", some "Jaw_Open", (200, 600), "smooth", 5/10⟩),
    ("P", ⟨"B_M_P", some "Mouth_Close", (100, 400), "sharp", 3/10⟩),
    ("R", ⟨"R", some "Mouth_Pucker", (400, 1000), "smooth", 3/10⟩),
    ("S", ⟨"S_Z", some "Mouth_Stretch_L", (4000, 8000), "smooth", 1/10⟩),
    ("SH", ⟨"S_Z", some "Mouth_Pucker", (2000, 4000), "smooth", 2/10⟩),
    ("T", ⟨"T_L_D_N", some "Jaw_Open", (200, 600), "sharp", 4/10⟩),
    ("TH", ⟨"TH", some "Mouth_Stretch_L", (100, 300), "smooth", 3/10⟩),
    ("V", ⟨"F_V", some "Mouth_Press_L", (3000, 6000), "smooth", 2/10⟩),
    ("W", ⟨"W_OO", some "Mouth_Pucker", (200, 500), "smooth", 4/10⟩),
    ("Y", ⟨"EE", some "Mouth_Stretch_L", (800, 2000), "smooth", 4/10⟩),
    ("Z", ⟨"S_Z", some "Mouth_Stretch_L", (4000, 8000), "smooth", 1/10⟩),
    ("ZH", ⟨"S_Z", some "Mouth_Pucker", (2000, 4000), "smooth", 2/10⟩) ]

/-- Result of `ProfessionalLipSyncSystem.getVisemeData`: table entries have
no `intensity` property (modelled as `none`), while the inline fallback
object carries `intensity: 0.5`. -/
structure ProfVisemeData where
  primary : String
  secondary : Option String
  intensity : Option ℚ
  jawIntensity : ℚ
deriving DecidableEq

/-- `ProfessionalLipSyncSystem.getVisemeData` (src/phoneme-detector.js
lines 614-621): `this.audioVisemeMapping[phoneme] || { primary: 'Ah',
secondary: null, intensity: 0.5, jawIntensity: 0.3 }`. -/
def proGetVisemeData (phoneme : String) : ProfVisemeData :=
  match alookup audioVisemeMapping phoneme with
  | some e =>
      { primary := e.primary, secondary := e.secondary,
        intensity := none, jawIntensity := e.jawIntensity }
  | none =>
      { primary := "Ah", secondary := none,
        intensity := some (5/10), jawIntensity := 3/10 }

/-- `ProfessionalLipSyncSystem.calculateBandIntensity` (src/phoneme-detector.js
lines 483-493): sums `data[i]` for `startBin ≤ i ≤ endBin` with `i <
data.length`, divides by the count and by 255, returning 0 when the count
is 0.  The loop touches exactly the elements of
`(data.take (endBin+1)).drop startBin`. -/
def calculateBandIntensity (data : List ℕ) (startBin endBin : ℕ) : ℚ :=
  if ((data.take (endBin + 1)).drop startBin).length = 0 then 0
  else ((((data.take (endBin + 1)).drop startBin).sum : ℕ) : ℚ) /
    ((data.take (endBin + 1)).drop startBin).length / 255

/-- `binSize` as computed in
`ProfessionalLipSyncSystem.calculateFrequencyBandIntensities` (line 455):
`sampleRate / (fftSize * 2)`. -/
def binSize (sampleRate fftSize : ℚ) : ℚ := sampleRate / (fftSize * 2)

/-- The four configured frequency bands in Hz
(`audioConfig.frequencyBands`, lines 327-332). -/
def frequencyBands : List (ℚ × ℚ) := [(80, 400), (400, 2000), (2000, 8000), (8000, 22050)]

/-- Bin range of one band: `Math.floor(lowHz / binSize)` to
`Math.floor(highHz / binSize)` (lines 458-474). -/
def bandBinRange (sampleRate fftSize lowHz highHz : ℚ) : ℕ × ℕ :=
  ((⌊lowHz / binSize sampleRate fftSize⌋).toNat, (⌊highHz / binSize sampleRate fftSize⌋).toNat)

/-- `ProfessionalLipSyncSystem.calculateFrequencyBandIntensities`
(lines 453-478): band energies (low, mid, high, ultra). -/
def calculateFrequencyBandIntensities (data : List ℕ) (sampleRate fftSize : ℚ) :
    ℚ × ℚ × ℚ × ℚ :=
  let r := fun (lo hi : ℚ) =>
    let range := bandBinRange sampleRate fftSize lo hi
    calculateBandIntensity data range.1 range.2
  (r 80 400, r 400 2000, r 2000 8000, r 8000 22050)

/-- `ProfessionalLipSyncSystem.calculateOverallIntensity` (lines 498-504):
`sum / (length * 255)`. -/
def calculateOverallIntensity (data : List ℕ) : ℚ :=
  ((data.sum : ℕ) : ℚ) / (data.length * 255)

/-- `ProfessionalLipSyncSystem.detectVisemeFromFrequencyAnalysis`
(lines 509-563), with `this.audioIntensity` passed explicitly.  Starts
from the defaults `primary = 'Ah'`, `confidence = 0.5` and overwrites
them only in the branches that do so in the source. -/
def detectVisemeFromFrequencyAnalysis (low mid high ultra audioIntensity : ℚ) :
    DetectedViseme :=
  let pc : String × ℚ :=
    if high > 6/10 ∨ ultra > 5/10 then
      if ultra > 6/10 then ("S_Z", min (9/10) ultra)
      else if high > 7/10 then ("F_V", min (8/10) high)
      else ("Ah", 5/10)
    else if mid > 6/10 then
      if mid > 8/10 then ("EE", min (9/10) mid)
      else if mid > 7/10 then ("Ah", min (8/10) mid)
      else ("Ah", 5/10)
    else if low > 6/10 then
      if low > 8/10 then ("B_M_P", min (9/10) low)
      else if low > 7/10 then ("K_G_H_NG", min (8/10) low)
      else ("Ah", 5/10)
    else ("Ah", 5/10)
  let secondary : Option String :=
    if audioIntensity > 7/10 then some "Jaw_Open"
    else if high > 5/10 then some "Mouth_Stretch_L"
    else none
  { primary := pc.1, secondary := secondary, intensity := audioIntensity,
    confidence := pc.2 }

/-- One frame of `ProfessionalLipSyncSystem.analyzeAudioFrame`
(lines 428-448) before `applyVisemeSmoothing`, which returns its argument
unchanged on the first frame: band energies and overall intensity feed
the frequency classifier. -/
def analyzeAudioFrame (data : List ℕ) (sampleRate fftSize : ℚ) : DetectedViseme :=
  let bands := calculateFrequencyBandIntensities data sampleRate fftSize
  detectVisemeFromFrequencyAnalysis bands.1 bands.2.1 bands.2.2.1 bands.2.2.2
    (calculateOverallIntensity data)

/-! Tokenizers.  The deploy `PhonemeDetector` matches multi-character
phoneme codes before single-character consonants and vowels, but each
code's "pattern" only inspects the first character (lines 594-648).  The
`ProfessionalLipSyncSystem` matches genuine two-character digraph
patterns before a single-character table (lines 666-747). -/

/-- Deploy multi-character phoneme codes, in source order (line 598). -/
def multiCharPhonemes : List String := ["CH", "DH", "HH", "JH", "NG", "SH", "TH", "ZH"]

/-- Deploy single-character consonant codes, in source order (line 607). -/
def singleCharPhonemes : List String :=
  ["B", "D", "F", "G", "K", "L", "M", "N", "P", "R", "S", "T", "V", "W", "Y", "Z"]

/-- Deploy vowel codes, in source order (line 616). -/
def vowelPhonemeCodes : List String :=
  ["AA", "AE", "AH", "AO", "AW", "AY", "EH", "ER", "EY", "IH", "IY", "OW", "OY", "UH", "UW"]

/-- Deploy `PhonemeDetector.getPhonemePattern` (lines 632-648): each code's
regex is a single-character class anchored at the start; we record that
character. -/
def getPhonemePattern (phoneme : String) : Option Char :=
  alookup
    [ ("AA", 'a'), ("AE", 'a'), ("AH", 'u'), ("AO", 'o'), ("AW", 'o'),
      ("AY", 'a'), ("EH", 'e'), ("ER", 'e'), ("EY", 'a'), ("IH", 'i'),
      ("IY", 'e'), ("OW", 'o'), ("OY", 'o'), ("UH", 'u'), ("UW", 'u'),
      ("B", 'b'), ("CH", 'c'), ("D", 'd'), ("DH", 't'), ("F", 'f'),
      ("G", 'g'), ("HH", 'h'), ("JH", 'j'), ("K", 'k'), ("L", 'l'),
      ("M", 'm'), ("N", 'n'), ("NG", 'n'), ("P", 'p'), ("R", 'r'),
      ("S", 's'), ("SH", 's'), ("T", 't'), ("TH", 't'), ("V", 'v'),
      ("W", 'w'), ("Y", 'y'), ("Z", 'z'), ("ZH", 'z') ] phoneme

/-- `remaining.match(pattern)` for one deploy code: the anchored
single-character class matches iff the first remaining character is the
recorded one. -/
def pdPatternMatches (phoneme : String) (rem : List Char) : Bool :=
  match getPhonemePattern phoneme, rem with
  | some c, r :: _ => r = c
  | _, _ => false

/-- Deploy `PhonemeDetector.extractNextPhoneme` (lines 594-625): first code
whose pattern matches, multi-character codes (consuming 2 characters)
before single consonants before vowels (each consuming 1). -/
def pdExtractNextPhoneme (rem : List Char) : Option (String × ℕ) :=
  match multiCharPhonemes.find? (fun ph => pdPatternMatches ph rem) with
  | some ph => some (ph, 2)
  | none =>
    match singleCharPhonemes.find? (fun ph => pdPatternMatches ph rem) with
    | some ph => some (ph, 1)
    | none =>
      match vowelPhonemeCodes.find? (fun ph => pdPatternMatches ph rem) with
      | some ph => some (ph, 1)
      | none => none

/-- The scan loop of deploy `PhonemeDetector.wordToPhonemes`
(lines 571-586), with explicit fuel (one unit per consumed character, so
`cs.length` fuel always suffices): advance by the matched length, or skip
one character on mismatch. -/
def pdWordToPhonemesAux : ℕ → List Char → List String
  | _, [] => []
  | 0, _ :: _ => []
  | fuel + 1, c :: rest =>
    match pdExtractNextPhoneme (c :: rest) with
    | some pl => pl.1 :: pdWordToPhonemesAux fuel (rest.drop (pl.2 - 1))
    | none => pdWordToPhonemesAux fuel rest

/-- Deploy `PhonemeDetector.wordToPhonemes` (lines 571-586). -/
def pdWordToPhonemes (cs : List Char) : List String :=
  pdWordToPhonemesAux cs.length cs

/-- Does `pat` occur at the start of `rem`?  (The anchored digraph regexes
of the professional tokenizer.) -/
def listStartsWith : List Char → List Char → Bool
  | [], _ => true
  | _ :: _, [] => false
  | p :: ps, c :: cs => p = c && listStartsWith ps cs

/-- `ProfessionalLipSyncSystem.extractNextPhoneme` digraph pattern table
(lines 670-694), in source order: pattern, phoneme, morph target (all
have length 2, duration 0.15). -/
def proPatterns : List (List Char × String × String) :=
  [ (['t','h'], "TH", "TH"), (['c','h'], "CH", "Ch_J"), (['s','h'], "SH", "S_Z"),
    (['n','g'], "NG", "K_G_H_NG"), (['p','h'], "F", "F_V"), (['w','h'], "W", "W_OO"),
    (['q','u'], "KW", "K_G_H_NG"), (['a','i'], "AY", "Ah"), (['a','y'], "AY", "Ah"),
    (['o','i'], "OY", "W_OO"), (['o','y'], "OY", "W_OO"), (['o','u'], "OW", "Oh"),
    (['o','w'], "OW", "Oh"), (['e','e'], "IY", "EE"), (['e','a'], "IY", "EE"),
    (['o','o'], "UW", "W_OO"), (['a','r'], "AR", "Ah"), (['e','r'], "ER", "Er"),
    (['i','r'], "ER", "Er"), (['u','r'], "ER", "Er"), (['o','r'], "OR", "Oh"),
    (['a','w'], "AW", "W_OO"), (['a','u'], "AW", "W_OO") ]

/-- `ProfessionalLipSyncSystem.extractNextPhoneme` single-character table
(lines 710-737): phoneme, morph target, duration. -/
def proCharPhonemes : List (Char × String × String × ℚ) :=
  [ ('a', ("AE", "AE", 2/10)), ('e', ("EH", "EE", 15/100)), ('i', ("IH", "IH", 15/100)),
    ('o', ("AH", "Ah", 2/10)), ('u', ("UH", "W_OO", 15/100)), ('b', ("B", "B_M_P", 1/10)),
    ('c', ("K", "K_G_H_NG", 1/10)), ('d', ("D", "T_L_D_N", 1/10)), ('f', ("F", "F_V", 15/100)),
    ('g', ("G", "K_G_H_NG", 1/10)), ('h', ("HH", "K_G_H_NG", 1/10)), ('j', ("JH", "Ch_J", 1/10)),
    ('k', ("K", "K_G_H_NG", 1/10)), ('l', ("L", "T_L_D_N", 15/100)), ('m', ("M", "B_M_P", 15/100)),
    ('n', ("N", "T_L_D_N", 15/100)), ('p', ("P", "B_M_P", 1/10)), ('q', ("K", "K_G_H_NG", 1/10)),
    ('r', ("R", "R", 15/100)), ('s', ("S", "S_Z", 15/100)), ('t', ("T", "T_L_D_N", 1/10)),
    ('v', ("V", "F_V", 15/100)), ('w', ("W", "W_OO", 15/100)), ('x', ("KS", "K_G_H_NG", 1/10)),
    ('y', ("Y", "EE", 15/100)), ('z', ("Z", "S_Z", 15/100)) ]

/-- Association lookup keyed by `Char`. -/
def charLookup {α : Type} (l : List (Char × α)) (key : Char) : Option α :=
  (l.find? (fun p => p.1 = key)).map Prod.snd

/-- A match produced by `ProfessionalLipSyncSystem.extractNextPhoneme`:
phoneme code, morph target, number of characters consumed, duration. -/
structure PhonemeMatch where
  phoneme : String
  morphTarget : String
  consumed : ℕ
  duration : ℚ
deriving DecidableEq

/-- `ProfessionalLipSyncSystem.extractNextPhoneme` (lines 666-747):
digraph patterns are tried in order before the single-character table;
unmatched characters yield `none`. -/
def proExtractNextPhoneme (rem : List Char) : Option PhonemeMatch :=
  match proPatterns.find? (fun p => listStartsWith p.1 rem) with
  | some p => some ⟨p.2.1, p.2.2, 2, 15/100⟩
  | none =>
    match rem with
    | [] => none
    | c :: _ =>
      match charLookup proCharPhonemes c with
      | some d => some ⟨d.1, d.2.1, 1, d.2.2⟩
      | none => none

/-- The scan loop of `ProfessionalLipSyncSystem.wordToPhonemes`
(lines 642-661) with explicit fuel (`cs.length` always suffices). -/
def proWordToPhonemesAux : ℕ → List Char → List (String × String × ℚ)
  | _, [] => []
  | 0, _ :: _ => []
  | fuel + 1, c :: rest =>
    match proExtractNextPhoneme (c :: rest) with
    | some m =>
      (m.phoneme, m.morphTarget, m.duration) :: proWordToPhonemesAux fuel (rest.drop (m.consumed - 1))
    | none => proWordToPhonemesAux fuel rest

/-- `ProfessionalLipSyncSystem.wordToPhonemes` (lines 642-661), keeping
the phoneme code, morph target and duration of each match. -/
def proWordToPhonemes (cs : List Char) : List (String × String × ℚ) :=
  proWordToPhonemesAux cs.length cs

/-! Deploy `PhonemeDetector.extractPhonemes` (lines 474-538): per-word
events with pauses, then count normalization against bounds derived from
the text length. -/

/-- One timed phoneme event of the deploy text pipeline. -/
structure PhonemeEventRec where
  phoneme : String
  morphTarget : String
  duration : ℚ
  wordIndex : ℤ
  phonemeIndex : ℤ
deriving DecidableEq

/-- `this.wordPause = 0.05` (line 118). -/
def wordPause : ℚ := 5/100

/-- `this.sentencePause = 0.2` (line 119). -/
def sentencePause : ℚ := 2/10

/-- Events contributed by one word (lines 481-489). -/
def pdWordEvents (w : List Char) (wi : ℕ) : List PhonemeEventRec :=
  (pdWordToPhonemes w).enum.map (fun p =>
    { phoneme := p.2,
      morphTarget := (alookup phonemeToMorphTarget p.2).getD "Ah",
      duration := getPhonemeDuration p.2,
      wordIndex := (wi : ℤ), phonemeIndex := (p.1 : ℤ) })

/-- The raw event list before count normalization (lines 475-511):
lower-cased text split on spaces, per-word events, a word pause between
words and a sentence pause at the end. -/
def pdBaseEvents (text : List Char) : List PhonemeEventRec :=
  let words := (text.map Char.toLower).splitOn ' '
  (words.enum.map (fun wp =>
    pdWordEvents wp.2 wp.1 ++
    (if wp.1 < words.length - 1 then
      [{ phoneme := "rest", morphTarget := "Ah", duration := wordPause,
         wordIndex := (wp.1 : ℤ), phonemeIndex := -1 }]
     else []))).flatten ++
  [{ phoneme := "rest", morphTarget := "Ah", duration := sentencePause,
     wordIndex := -1, phonemeIndex := -1 }]

/-- `minPhonemes = Math.max(8, Math.floor(text.length / 2))` (line 514). -/
def minPhonemesFor (textLen : ℕ) : ℕ := max 8 (textLen / 2)

/-- `maxPhonemes = Math.min(25, Math.floor(text.length * 1.5))` (line 515). -/
def maxPhonemesFor (textLen : ℕ) : ℕ := min 25 (3 * textLen / 2)

/-- `Math.ceil(a / b)` on naturals. -/
def ceilDiv (a b : ℕ) : ℕ := (a + b - 1) / b

/-- The decimation loop `for (i = 0; i < len; i += step)` (lines 529-534)
with explicit fuel (`ps.length` always suffices): keep every `step`-th
element starting at index 0. -/
def decimateAux {α : Type} (step : ℕ) : ℕ → List α → List α
  | _, [] => []
  | 0, _ :: _ => []
  | fuel + 1, a :: rest => a :: decimateAux step fuel (rest.drop (step - 1))

/-- Fixed-stride decimation: elements at indices 0, step, 2·step, …. -/
def decimate {α : Type} (ps : List α) (step : ℕ) : List α :=
  decimateAux step ps.length ps

/-- The padding loop (lines 519-526): `k` rounds each duplicating the
element at a pseudo-random index (`Math.floor(Math.random()*len)`,
modelled by `pick i % len`); when the list is empty the lookup yields
`undefined` and nothing is pushed. -/
def padRandom {α : Type} (pick : ℕ → ℕ) (ps : List α) (k : ℕ) : List α :=
  (List.range k).filterMap (fun i => ps[pick i % ps.length]?)

/-- The count-normalization tail of `extractPhonemes` (lines 513-537). -/
def normalizePhonemeCount (pick : ℕ → ℕ) (ps : List PhonemeEventRec) (textLen : ℕ) :
    List PhonemeEventRec :=
  if ps.length < minPhonemesFor textLen then
    ps ++ padRandom pick ps (minPhonemesFor textLen - ps.length)
  else if maxPhonemesFor textLen < ps.length then
    decimate ps (ceilDiv ps.length (maxPhonemesFor textLen))
  else ps

/-- Deploy `PhonemeDetector.extractPhonemes` (lines 474-538), its random
choices supplied by `pick`. -/
def pdExtractPhonemes (pick : ℕ → ℕ) (text : List Char) : List PhonemeEventRec :=
  normalizePhonemeCount pick (pdBaseEvents text) text.length

/-! Text-path scheduling in `InteractiveBabyCharacter` (src/app.js). -/

/-- The timer schedule produced by one of the text-path start functions:
onset offsets of the per-phoneme transitions, the per-phoneme transition
duration, and the offset and duration of the terminal return-to-neutral
transition (all in seconds). -/
structure LipSyncSchedule where
  offsets : List ℚ
  transitionDuration : ℚ
  resetOffset : ℚ
  resetDuration : ℚ
deriving DecidableEq

/-- `startSimpleNonIntrusiveLipSync` (src/app.js lines 682-729) for a
non-empty phoneme list: `timePerPhoneme = audioDuration / count`, onset at
`index * timePerPhoneme`, transition `min(0.18, timePerPhoneme*0.6)`, and
the neutral reset at `audioDuration - 0.1` with a 0.5 s transition. -/
def startSimpleNonIntrusiveLipSync (phonemeCount : ℕ) (audioDuration : ℚ) : LipSyncSchedule :=
  let timePerPhoneme := audioDuration / phonemeCount
  { offsets := (List.range phonemeCount).map (fun i => i * timePerPhoneme),
    transitionDuration := min (18/100) (timePerPhoneme * (6/10)),
    resetOffset := audioDuration - 1/10,
    resetDuration := 5/10 }

/-- `handleShortAudio` (lines 844-867): first `min(count,5)` key phonemes
spread over the duration, reset exactly at the end. -/
def handleShortAudio (phonemeCount : ℕ) (audioDuration : ℚ) : LipSyncSchedule :=
  let k := min phonemeCount 5
  let t := audioDuration / k
  { offsets := (List.range k).map (fun i => i * t),
    transitionDuration := 5/100,
    resetOffset := audioDuration,
    resetDuration := 1/10 }

/-- `startLipSyncWithAudioDuration` (lines 788-842): short audio is
delegated, long audio caps the phoneme count at 30, otherwise onsets use
`max(timePerPhoneme, 0.06)` and the reset fires at `audioDuration - 0.05`. -/
def startLipSyncWithAudioDuration (phonemeCount : ℕ) (audioDuration : ℚ) : LipSyncSchedule :=
  if audioDuration < 1/2 then handleShortAudio phonemeCount audioDuration
  else
    let n := if audioDuration > 10 then min phonemeCount 30 else phonemeCount
    let t := audioDuration / n
    let adj := max t (6/100)
    { offsets := (List.range n).map (fun i => i * adj),
      transitionDuration := min (8/100) (t * (3/10)),
      resetOffset := audioDuration - 5/100,
      resetDuration := 1/10 }

/-! Weight application (src/app.js). -/

/-- The mesh's `BlendShapeId → index` dictionary
(`this.morphTargets = child.morphTargetDictionary`). -/
def morphLookup (dict : List (String × ℕ)) (name : String) : Option ℕ :=
  alookup dict name

/-- Argument shape destructured by `InteractiveBabyCharacter.applyVisemeInRealTime`
(line 988): `{ primaryTarget, secondaryTarget, intensity, confidence }`.
The live analyser actually supplies fields named `primary`/`secondary`,
so both options are `none` on that call path. -/
structure RealTimeVisemeData where
  primaryTarget : Option String
  secondaryTarget : Option String
  intensity : ℚ
  confidence : ℚ
deriving DecidableEq

/-- `InteractiveBabyCharacter.applyVisemeInRealTime` (lines 985-1008):
write `intensity*confidence` at the primary target's index and
`intensity*confidence*0.7` at the secondary target's index, skipping any
target absent from the dictionary. -/
def applyVisemeInRealTime (dict : List (String × ℕ)) (infl : List ℚ)
    (vd : RealTimeVisemeData) : List ℚ :=
  let i1 :=
    match vd.primaryTarget with
    | some t =>
      match morphLookup dict t with
      | some idx => infl.set idx (vd.intensity * vd.confidence)
      | none => infl
    | none => infl
  match vd.secondaryTarget with
  | some t =>
    match morphLookup dict t with
    | some idx => i1.set idx (vd.intensity * vd.confidence * (7/10))
    | none => i1
  | none => i1

/-- One animation frame of `smoothTransitionToMorphTarget`
(src/app.js lines 1044-1103) at eased progress `eased`
(`Math.sin(progress*π)` in the source): all influences are zeroed, then
the primary channel is set to
`startW + (min(1, intensity*1.2) - startW) * eased` and the secondary (if
its id is in the dictionary) to
`startW + (min(1, intensity*0.8) - startW) * eased`, with viseme data
from the deploy `PhonemeDetector.getVisemeData`. -/
def smoothTransitionFrame (dict : List (String × ℕ)) (startWeights : List ℚ)
    (phoneme : String) (eased : ℚ) : List ℚ :=
  let vd := pdGetVisemeData phoneme
  let zeroed := startWeights.map (fun _ => (0 : ℚ))
  let j1 :=
    match morphLookup dict vd.primary with
    | some idx =>
      let targetWeight := min 1 (vd.intensity * (12/10))
      let startW := startWeights.getD idx 0
      zeroed.set idx (startW + (targetWeight - startW) * eased)
    | none => zeroed
  match vd.secondary with
  | some sec =>
    match morphLookup dict sec with
    | some idx =>
      let targetWeight := min 1 (vd.intensity * (8/10))
      let startW := startWeights.getD idx 0
      j1.set idx (startW + (targetWeight - startW) * eased)
    | none => j1
  | none => j1

/-- `easeOutQuart(t) = 1 - (1-t)^4` (src/app.js line 1154). -/
def easeOutQuart (t : ℚ) : ℚ := 1 - (1 - t)^4

/-- One channel of a `smoothTransitionToNeutral` frame (lines 1106-1142)
at elapsed time `t` with fade duration `d`: weights above the 0.05
threshold decay by `startWeight * (1 - easeOutQuart(progress))`, smaller
weights are written as 0. -/
def neutralWeightAt (w0 d t : ℚ) : ℚ :=
  let progress := min (t / d) 1
  if 1/20 < w0 then w0 * (1 - easeOutQuart progress) else 0

/-- A whole `smoothTransitionToNeutral` frame. -/
def smoothTransitionToNeutralFrame (startWeights : List ℚ) (d t : ℚ) : List ℚ :=
  startWeights.map (fun w => neutralWeightAt w d t)

/-- `InteractiveBabyCharacter.stopLipSync` (lines 1182-1188) fades with
`smoothTransitionToNeutral(0.2)`. -/
def interactiveStopFadeDuration : ℚ := 2/10

/-- `ProfessionalBabyCharacter.resetToNeutral` (lines 2132-2141): every
influence is set to 0 in the same tick. -/
def resetToNeutral (infl : List ℚ) : List ℚ := infl.map (fun _ => (0 : ℚ))

/-- `ProfessionalBabyCharacter.stopLipSync` (lines 2146-2157): clears the
timers, stops analysis, and applies `resetToNeutral` immediately. -/
def professionalStopWeights (infl : List ℚ) : List ℚ := resetToNeutral infl

/-! Operational model of the timer/animation-frame machinery used by
`InteractiveBabyCharacter` (src/app.js): `setTimeout` handles are tracked
in `lipSyncTimeouts` and cleared when a new session starts, while the
`requestAnimationFrame` loops started by `smoothTransitionToMorphTarget`
are not tracked anywhere.  Sessions are numbered (ghost instrumentation)
so a weight write can be attributed to the start call that scheduled it. -/

/-- A scheduled callback. -/
inductive Callback where
  /-- a `setTimeout` body that calls `smoothTransitionToMorphTarget`. -/
  | phonemeStart (session : ℕ) (phoneme : String) (transitionDuration : ℚ)
  /-- a `setTimeout` body that calls `smoothTransitionToNeutral`. -/
  | neutralStart (session : ℕ) (fadeDuration : ℚ)
  /-- the `animate` closure of `smoothTransitionToMorphTarget`,
  re-registered via `requestAnimationFrame` while `progress < 1`. -/
  | rafTransition (session : ℕ) (phoneme : String) (startTime duration : ℚ)
  /-- the `animate` closure of `smoothTransitionToNeutral`. -/
  | rafNeutral (session : ℕ) (startTime duration : ℚ)
deriving DecidableEq

/-- Engine state: clock, timer table, the `lipSyncTimeouts` handle list,
the animation-frame queue, a session counter, and a log of morph-weight
writes tagged with the writing session. -/
structure EngineState where
  now : ℚ
  nextTimeoutId : ℕ
  pending : List (ℕ × ℚ × Callback)
  lipSyncTimeouts : List ℕ
  rafQueue : List Callback
  sessionCount : ℕ
  writeLog : List ℕ
deriving DecidableEq

/-- The idle engine. -/
def initialEngine : EngineState := ⟨0, 0, [], [], [], 0, []⟩

/-- `this.lipSyncTimeouts.forEach(clearTimeout); this.lipSyncTimeouts = []`
(lines 688-691): cancelled handles never fire. -/
def clearLipSyncTimeouts (s : EngineState) : EngineState :=
  { s with
    pending := s.pending.filter (fun e => !(s.lipSyncTimeouts.contains e.1)),
    lipSyncTimeouts := [] }

/-- `setTimeout(cb, delay)` with the handle pushed onto
`this.lipSyncTimeouts`. -/
def scheduleTimeout (s : EngineState) (delay : ℚ) (cb : Callback) : EngineState :=
  { s with
    pending := s.pending ++ [(s.nextTimeoutId, s.now + delay, cb)],
    lipSyncTimeouts := s.lipSyncTimeouts ++ [s.nextTimeoutId],
    nextTimeoutId := s.nextTimeoutId + 1 }

/-- `startSimpleNonIntrusiveLipSync` (lines 682-729) as a state
transition: clear the tracked timers, bump the (ghost) session counter,
schedule one transition per phoneme at `index * timePerPhoneme` and the
neutral reset at `audioDuration - 0.1`. -/
def startSimpleOp (s : EngineState) (phonemes : List String) (audioDuration : ℚ) :
    EngineState :=
  let s1 := clearLipSyncTimeouts s
  let sess := s1.sessionCount + 1
  let s2 := { s1 with sessionCount := sess }
  let tp := audioDuration / phonemes.length
  let trans := min (18/100) (tp * (6/10))
  let s3 := phonemes.enum.foldl
    (fun st p => scheduleTimeout st ((p.1 : ℚ) * tp) (Callback.phonemeStart sess p.2 trans)) s2
  scheduleTimeout s3 (audioDuration - 1/10) (Callback.neutralStart sess (5/10))

/-- Run one callback body.  Timer bodies start a `requestAnimationFrame`
loop; an animation-frame body writes the morph influences (logged with
its session tag) and re-registers itself while `progress < 1`. -/
def runCallback (s : EngineState) (cb : Callback) : EngineState :=
  match cb with
  | Callback.phonemeStart sess ph dur =>
    { s with rafQueue := s.rafQueue ++ [Callback.rafTransition sess ph s.now dur] }
  | Callback.neutralStart sess dur =>
    { s with rafQueue := s.rafQueue ++ [Callback.rafNeutral sess s.now dur] }
  | Callback.rafTransition sess ph t0 dur =>
    let progress := min ((s.now - t0) / dur) 1
    let s1 := { s with writeLog := s.writeLog ++ [sess] }
    if progress < 1 then
      { s1 with rafQueue := s1.rafQueue ++ [Callback.rafTransition sess ph t0 dur] }
    else s1
  | Callback.rafNeutral sess t0 dur =>
    let progress := min ((s.now - t0) / dur) 1
    let s1 := { s with writeLog := s.writeLog ++ [sess] }
    if progress < 1 then
      { s1 with rafQueue := s1.rafQueue ++ [Callback.rafNeutral sess t0 dur] }
    else s1

/-- Fire the pending timeout with handle `id` if it is due; a handle that
was cleared (absent from the table) does nothing. -/
def fireTimeoutId (s : EngineState) (id : ℕ) : EngineState :=
  match s.pending.find? (fun e => e.1 == id) with
  | some e =>
    if e.2.1 ≤ s.now then
      runCallback { s with pending := s.pending.filter (fun x => !(x.1 == id)) } e.2.2
    else s
  | none => s

/-- Advance the clock. -/
def advanceTo (s : EngineState) (t : ℚ) : EngineState := { s with now := t }

/-- One display frame: every queued animation-frame callback runs once
(re-registrations go into the next frame's queue). -/
def runFrame (s : EngineState) : EngineState :=
  s.rafQueue.foldl runCallback { s with rafQueue := [] }

/-- The (ghost) session tag of a callback. -/
def sessionOf : Callback → ℕ
  | Callback.phonemeStart sess _ _ => sess
  | Callback.neutralStart sess _ => sess
  | Callback.rafTransition sess _ _ _ => sess
  | Callback.rafNeutral sess _ _ => sess

/-- A concrete execution: session 1 starts with one phoneme over 2 s. -/
def traceStart1 : EngineState := startSimpleOp initialEngine ["AA"] 2

/-- The first phoneme timeout (handle 0) fires at time 0 and starts the
transition's animation-frame loop. -/
def traceTimeout1 : EngineState := fireTimeoutId traceStart1 0

/-- The animation frame at 0.01 s: the transition writes weights
(progress 0.01/0.18 < 1) and re-registers itself. -/
def traceFrame1 : EngineState := runFrame (advanceTo traceTimeout1 (1/100))

/-- Session 2 starts while session 1's transition loop is mid-flight:
all tracked `setTimeout` handles are cleared. -/
def traceStart2 : EngineState := startSimpleOp traceFrame1 ["AA"] 2

/-- The next animation frame at 0.02 s: session 1's surviving transition
loop fires again. -/
def traceFrame2 : EngineState := runFrame (advanceTo traceStart2 (2/100))

/-- Modelled from the spec (refinement comparison only): the spectral bin
width claimed by the specification, `binHz = sampleRate / fftSize`.  The
source computes `sampleRate / (fftSize * 2)` instead (`binSize`). -/
def specBinHz (sampleRate fftSize : ℚ) : ℚ := sampleRate / fftSize

end BabySync

namespace BabySync

/-! Helper lemmas (shared; none of them is a claim theorem, a witness or
a counterexample). -/

/-- Sum of naturals bounded by `b` is at most `length * b`. -/
theorem natSum_le (l : List ℕ) (b : ℕ) (h : ∀ x ∈ l, x ≤ b) :
    l.sum ≤ l.length * b := by
  induction l with
  | nil => simp
  | cons a t ih =>
    have ha := h a (by simp)
    have ht := ih (fun x hx => h x (by simp [hx]))
    simp only [List.sum_cons, List.length_cons]
    have hb : (t.length + 1) * b = t.length * b + b := by ring
    omega

/-- Elements of the band segment are elements of the spectrum. -/
theorem mem_of_mem_seg {data : List ℕ} {s e : ℕ} {x : ℕ}
    (h : x ∈ (data.take e).drop s) : x ∈ data :=
  List.mem_of_mem_take (List.mem_of_mem_drop h)

/-- `getAverageFrequency` is nonnegative. -/
theorem getAverageFrequency_nonneg (data : List ℕ) (s e : ℕ) :
    0 ≤ getAverageFrequency data s e := by
  unfold getAverageFrequency
  split
  · exact le_refl 0
  · positivity

/-- `getAverageFrequency` of byte data is at most 255. -/
theorem getAverageFrequency_le (data : List ℕ) (s e : ℕ) (h : ∀ x ∈ data, x ≤ 255) :
    getAverageFrequency data s e ≤ 255 := by
  unfold getAverageFrequency
  split
  · norm_num
  · rename_i hne
    have hlen : (0 : ℚ) < ((data.take e).drop s).length := by
      exact_mod_cast Nat.pos_of_ne_zero hne
    rw [div_le_iff₀ hlen]
    have hs := natSum_le ((data.take e).drop s) 255 (fun x hx => h x (mem_of_mem_seg hx))
    have : (((data.take e).drop s).sum : ℚ) ≤ ((data.take e).drop s).length * 255 := by
      exact_mod_cast hs
    linarith

/-- `getAverageFrequency` of an all-zero spectrum is zero. -/
theorem getAverageFrequency_zero (data : List ℕ) (s e : ℕ) (h : ∀ x ∈ data, x = 0) :
    getAverageFrequency data s e = 0 := by
  unfold getAverageFrequency
  split
  · rfl
  · rw [List.sum_eq_zero (fun x hx => h x (mem_of_mem_seg hx))]
    simp

/-- `calculateBandIntensity` is nonnegative. -/
theorem calculateBandIntensity_nonneg (data : List ℕ) (s e : ℕ) :
    0 ≤ calculateBandIntensity data s e := by
  unfold calculateBandIntensity
  split
  · exact le_refl 0
  · positivity

/-- `calculateBandIntensity` of byte data is at most 1. -/
theorem calculateBandIntensity_le_one (data : List ℕ) (s e : ℕ)
    (h : ∀ x ∈ data, x ≤ 255) : calculateBandIntensity data s e ≤ 1 := by
  unfold calculateBandIntensity
  split
  · norm_num
  · rename_i hne
    have hlen : (0 : ℚ) < ((data.take (e+1)).drop s).length := by
      exact_mod_cast Nat.pos_of_ne_zero hne
    rw [div_le_one (by norm_num), div_le_iff₀ hlen]
    have hs := natSum_le ((data.take (e+1)).drop s) 255 (fun x hx => h x (by
      exact List.mem_of_mem_take (List.mem_of_mem_drop hx)))
    have : (((data.take (e+1)).drop s).sum : ℚ) ≤ ((data.take (e+1)).drop s).length * 255 := by
      exact_mod_cast hs
    linarith

/-- `calculateBandIntensity` of an all-zero spectrum is zero. -/
theorem calculateBandIntensity_zero (data : List ℕ) (s e : ℕ) (h : ∀ x ∈ data, x = 0) :
    calculateBandIntensity data s e = 0 := by
  unfold calculateBandIntensity
  split
  · rfl
  · rw [List.sum_eq_zero (fun x hx => h x (by
      exact List.mem_of_mem_take (List.mem_of_mem_drop hx)))]
    simp

/-- Interpolation `s + (t - s) * e` stays in the unit interval. -/
theorem interp_unit {s t e : ℚ} (hs0 : 0 ≤ s) (hs1 : s ≤ 1) (ht0 : 0 ≤ t) (ht1 : t ≤ 1)
    (he0 : 0 ≤ e) (he1 : e ≤ 1) : 0 ≤ s + (t - s) * e ∧ s + (t - s) * e ≤ 1 := by
  constructor <;> nlinarith

/-- A successful association lookup returns the value of some table entry. -/
theorem alookup_some {α : Type} {l : List (String × α)} {key : String} {v : α}
    (h : alookup l key = some v) : ∃ p ∈ l, p.2 = v := by
  unfold alookup at h
  cases hf : l.find? (fun p => p.1 = key) with
  | none => rw [hf] at h; simp at h
  | some p =>
    rw [hf] at h
    simp only [Option.map_some'] at h
    exact ⟨p, List.mem_of_find?_eq_some hf, Option.some.inj h⟩

/-- A key matching no table entry makes the lookup return `none`. -/
theorem alookup_none {α : Type} {l : List (String × α)} {key : String}
    (h : ∀ p ∈ l, p.1 ≠ key) : alookup l key = none := by
  unfold alookup
  rw [List.find?_eq_none.mpr]
  · rfl
  · intro x hx
    simp [h x hx]

/-- An element of `l.set i x` is an element of `l` or equals `x`. -/
theorem mem_set_cases {α : Type} {l : List α} {i : ℕ} {x a : α} (h : a ∈ l.set i x) :
    a ∈ l ∨ a = x := by
  have := List.mem_or_eq_of_mem_set h
  tauto

/-- `getD i 0` of a list of unit-interval weights is in the unit interval. -/
theorem getD_unit {l : List ℚ} (h : ∀ w ∈ l, 0 ≤ w ∧ w ≤ 1) (i : ℕ) :
    0 ≤ l.getD i 0 ∧ l.getD i 0 ≤ 1 := by
  rcases hg : l[i]? with _ | w
  · simp [List.getD, hg]
  · have hw := h w (List.getElem?_mem hg)
    simpa [List.getD, hg] using hw

/-- The deploy viseme table only stores intensities in the unit interval,
so `getVisemeData` always returns one. -/
theorem pdGetVisemeData_intensity_unit (ph : String) :
    0 ≤ (pdGetVisemeData ph).intensity ∧ (pdGetVisemeData ph).intensity ≤ 1 := by
  unfold pdGetVisemeData
  cases h : alookup visemeSystem ph with
  | none => norm_num
  | some v =>
    rcases alookup_some h with ⟨p, hp, rfl⟩
    have htable : ∀ q ∈ visemeSystem, 0 ≤ q.2.intensity ∧ q.2.intensity ≤ 1 := by
      intro q hq
      fin_cases hq <;> constructor <;> norm_num
    exact htable p hp

/-- The deploy frequency classifier only returns the intensity constants
of its branches, all within the unit interval. -/
theorem classify_intensity_unit (low mid high ultra total : ℚ) :
    0 ≤ (classifyVisemeFromFrequencies low mid high ultra total).2.2 ∧
      (classifyVisemeFromFrequencies low mid high ultra total).2.2 ≤ 1 := by
  unfold classifyVisemeFromFrequencies
  split_ifs <;> norm_num

/-- `detectVisemeFromAudio` produces intensity and confidence in the unit
interval. -/
theorem detectVisemeFromAudio_unit (data : List ℕ) :
    (0 ≤ (detectVisemeFromAudio data).intensity ∧ (detectVisemeFromAudio data).intensity ≤ 1) ∧
      (0 ≤ (detectVisemeFromAudio data).confidence ∧ (detectVisemeFromAudio data).confidence ≤ 1) := by
  unfold detectVisemeFromAudio
  refine ⟨classify_intensity_unit _ _ _ _ _, ?_, min_le_left _ _⟩
  have h0 := getAverageFrequency_nonneg data 0 50
  have h1 := getAverageFrequency_nonneg data 50 150
  have h2 := getAverageFrequency_nonneg data 150 300
  have h3 := getAverageFrequency_nonneg data 300 500
  exact le_min (by norm_num) (by positivity)

/-! Claim theorems. -/

/-- C10: for every spectrum array and every bin range, the per-band
average-energy computations are total functions of their arguments: they
read only the in-range slice of the array, return 0 when the range
contains no valid bin (in particular when the whole range lies beyond a
short spectrum), the normalized result of `calculateBandIntensity` lies
in [0,1] for byte-valued input, and `getAverageFrequency` lies in [0,255]
so that its 255-normalization lies in [0,1]. -/
theorem c10_band_average_total_and_bounded (data : List ℕ) (s e : ℕ)
    (hb : ∀ x ∈ data, x ≤ 255) :
    (0 ≤ calculateBandIntensity data s e ∧ calculateBandIntensity data s e ≤ 1) ∧
    ((data.take (e + 1)).drop s = [] → calculateBandIntensity data s e = 0) ∧
    (0 ≤ getAverageFrequency data s e ∧ getAverageFrequency data s e ≤ 255 ∧
      getAverageFrequency data s e / 255 ≤ 1) ∧
    ((data.take e).drop s = [] → getAverageFrequency data s e = 0) ∧
    (data.length ≤ s → calculateBandIntensity data s e = 0 ∧ getAverageFrequency data s e = 0) := by
  have hdrop : ∀ k : ℕ, data.length ≤ s → (data.take k).drop s = [] := by
    intro k hs
    have h1 : (data.take k).length ≤ s := by
      simp only [List.length_take]
      omega
    exact List.drop_eq_nil_of_le h1
  refine ⟨⟨calculateBandIntensity_nonneg data s e, calculateBandIntensity_le_one data s e hb⟩,
    ?_, ⟨getAverageFrequency_nonneg data s e, getAverageFrequency_le data s e hb, ?_⟩, ?_, ?_⟩
  · intro hseg
    unfold calculateBandIntensity
    simp [hseg]
  · have h1 := getAverageFrequency_le data s e hb
    rw [div_le_one (by norm_num)]
    exact h1
  · intro hseg
    unfold getAverageFrequency
    simp [hseg]
  · intro hs
    constructor
    · unfold calculateBandIntensity
      simp [hdrop (e + 1) hs]
    · unfold getAverageFrequency
      simp [hdrop e hs]

/-- Witness for C10 at a concrete two-byte spectrum. -/
theorem c10_witness :
    (0 ≤ calculateBandIntensity [255, 10] 0 0 ∧ calculateBandIntensity [255, 10] 0 0 ≤ 1) ∧
    (([255, 10].take (0 + 1)).drop 0 = [] → calculateBandIntensity [255, 10] 0 0 = 0) ∧
    (0 ≤ getAverageFrequency [255, 10] 0 0 ∧ getAverageFrequency [255, 10] 0 0 ≤ 255 ∧
      getAverageFrequency [255, 10] 0 0 / 255 ≤ 1) ∧
    (([255, 10].take 0).drop 0 = [] → getAverageFrequency [255, 10] 0 0 = 0) ∧
    (([255, 10] : List ℕ).length ≤ 0 →
      calculateBandIntensity [255, 10] 0 0 = 0 ∧ getAverageFrequency [255, 10] 0 0 = 0) :=
  c10_band_average_total_and_bounded [255, 10] 0 0 (by decide)

/-- C4 counterexample: on an all-zero spectrum the
`ProfessionalLipSyncSystem` frame analysis returns confidence 0.5 (the
untouched default of `detectVisemeFromFrequencyAnalysis`), not the
claimed 0; and the deploy detector returns sample intensity 0.2 (the
neutral base intensity), not 0. -/
theorem c4_zero_spectrum_not_as_claimed :
    (analyzeAudioFrame (List.replicate 8 0) 44100 2048).confidence = 1/2 ∧
    ¬((1 : ℚ)/2 = 0) ∧
    (detectVisemeFromAudio (List.replicate 8 0)).intensity = 1/5 ∧
    ¬((1 : ℚ)/5 = 0) := by
  have hz : ∀ x ∈ List.replicate 8 0, x = 0 := fun x hx => List.eq_of_mem_replicate hx
  have hband : ∀ a b : ℕ, calculateBandIntensity (List.replicate 8 0) a b = 0 :=
    fun a b => calculateBandIntensity_zero _ a b hz
  have havg : ∀ a b : ℕ, getAverageFrequency (List.replicate 8 0) a b = 0 :=
    fun a b => getAverageFrequency_zero _ a b hz
  have hover : calculateOverallIntensity (List.replicate 8 0) = 0 := by
    unfold calculateOverallIntensity
    rw [List.sum_eq_zero hz]
    simp
  refine ⟨?_, by norm_num, ?_, by norm_num⟩
  · unfold analyzeAudioFrame calculateFrequencyBandIntensities
    simp only [hband, hover]
    norm_num [detectVisemeFromFrequencyAnalysis]
  · unfold detectVisemeFromAudio
    simp only [havg]
    norm_num [classifyVisemeFromFrequencies]

/-- C4 (amended): on every non-empty all-zero spectrum the
`ProfessionalLipSyncSystem` frame analysis yields the neutral primary
`'Ah'` with no secondary, overall intensity 0 and confidence 0.5 (its
default), while the deploy `detectVisemeFromAudio` yields the neutral
primary with confidence 0 and the neutral base intensity 0.2. -/
theorem c4_zero_spectrum_neutral_classification (data : List ℕ) (sr fft : ℚ)
    (hlen : 0 < data.length) (hz : ∀ x ∈ data, x = 0) :
    analyzeAudioFrame data sr fft =
      { primary := "Ah", secondary := none, intensity := 0, confidence := 1/2 } ∧
    detectVisemeFromAudio data =
      { primary := "Ah", secondary := none, intensity := 1/5, confidence := 0 } := by
  have hband : ∀ a b : ℕ, calculateBandIntensity data a b = 0 :=
    fun a b => calculateBandIntensity_zero data a b hz
  have havg : ∀ a b : ℕ, getAverageFrequency data a b = 0 :=
    fun a b => getAverageFrequency_zero data a b hz
  have hover : calculateOverallIntensity data = 0 := by
    unfold calculateOverallIntensity
    rw [List.sum_eq_zero hz]
    simp
  constructor
  · unfold analyzeAudioFrame calculateFrequencyBandIntensities
    simp only [hband, hover]
    norm_num [detectVisemeFromFrequencyAnalysis]
  · unfold detectVisemeFromAudio
    simp only [havg]
    norm_num [classifyVisemeFromFrequencies]

/-- Witness for C4 at the concrete zero spectrum of 8 bins. -/
theorem c4_witness :
    analyzeAudioFrame (List.replicate 8 0) 44100 2048 =
      { primary := "Ah", secondary := none, intensity := 0, confidence := 1/2 } ∧
    detectVisemeFromAudio (List.replicate 8 0) =
      { primary := "Ah", secondary := none, intensity := 1/5, confidence := 0 } :=
  c4_zero_spectrum_neutral_classification (List.replicate 8 0) 44100 2048 (by decide)
    (fun x hx => List.eq_of_mem_replicate hx)

/-- C9 counterexample: the source computes the bin width as
`sampleRate / (fftSize * 2)`, not the claimed `sampleRate / fftSize`; at
the configured 44100 Hz / 2048-point FFT the low band [80,400] maps to
bins (7,37) in the source but would map to (3,18) under the claimed
formula. -/
theorem c9_bin_width_mismatch :
    binSize 44100 2048 ≠ specBinHz 44100 2048 ∧
    bandBinRange 44100 2048 80 400 = (7, 37) ∧
    ((⌊(80 : ℚ) / specBinHz 44100 2048⌋).toNat, (⌊(400 : ℚ) / specBinHz 44100 2048⌋).toNat)
      = (3, 18) ∧
    (7, 37) ≠ ((3 : ℕ), (18 : ℕ)) := by
  refine ⟨by norm_num [binSize, specBinHz], ?_, ?_, by decide⟩
  · norm_num [bandBinRange, binSize]
    exact ⟨rfl, rfl⟩
  · norm_num [specBinHz]
    exact ⟨rfl, rfl⟩

/-- C9 (amended): the classifier computes the bin width as
`binHz = sampleRate / (fftSize * 2)` — half the claimed
`sampleRate / fftSize` — maps each configured band [lowHz, highHz] to the
bin range [⌊lowHz/binHz⌋, ⌊highHz/binHz⌋], averages the byte magnitudes
in that range normalized by 255 into [0,1], and `overallIntensity` is the
mean over all bins of the 255-normalized magnitudes. -/
theorem c9_band_mapping_amended (sr fft : ℚ) (data : List ℕ) (lo hi : ℚ)
    (hb : ∀ x ∈ data, x ≤ 255) (hlen : 0 < data.length) :
    binSize sr fft = specBinHz sr fft / 2 ∧
    bandBinRange sr fft lo hi =
      ((⌊lo / binSize sr fft⌋).toNat, (⌊hi / binSize sr fft⌋).toNat) ∧
    calculateFrequencyBandIntensities data sr fft =
      (calculateBandIntensity data (bandBinRange sr fft 80 400).1 (bandBinRange sr fft 80 400).2,
       calculateBandIntensity data (bandBinRange sr fft 400 2000).1 (bandBinRange sr fft 400 2000).2,
       calculateBandIntensity data (bandBinRange sr fft 2000 8000).1 (bandBinRange sr fft 2000 8000).2,
       calculateBandIntensity data (bandBinRange sr fft 8000 22050).1 (bandBinRange sr fft 8000 22050).2) ∧
    (0 ≤ calculateBandIntensity data (bandBinRange sr fft lo hi).1 (bandBinRange sr fft lo hi).2 ∧
      calculateBandIntensity data (bandBinRange sr fft lo hi).1 (bandBinRange sr fft lo hi).2 ≤ 1) ∧
    calculateOverallIntensity data =
      ((data.map (fun (x : ℕ) => (x : ℚ) / 255)).sum) / data.length := by
  refine ⟨?_, rfl, rfl, ⟨calculateBandIntensity_nonneg data _ _,
    calculateBandIntensity_le_one data _ _ hb⟩, ?_⟩
  · unfold binSize specBinHz
    rw [div_div]
  · unfold calculateOverallIntensity
    have h1 : (data.map (fun (x : ℕ) => (x : ℚ) / 255)).sum
        = (data.map (fun (x : ℕ) => (x : ℚ))).sum / 255 := by
      simp only [div_eq_mul_inv]
      rw [List.sum_map_mul_right]
    have h2 : ((data.sum : ℕ) : ℚ) = (data.map (fun (x : ℕ) => (x : ℚ))).sum :=
      Nat.cast_list_sum data
    rw [h1, ← h2]
    ring

/-- Witness for C9 at the configured sample rate, FFT size and low band. -/
theorem c9_witness :
    binSize 44100 2048 = specBinHz 44100 2048 / 2 ∧
    bandBinRange 44100 2048 80 400 =
      ((⌊(80 : ℚ) / binSize 44100 2048⌋).toNat, (⌊(400 : ℚ) / binSize 44100 2048⌋).toNat) ∧
    calculateFrequencyBandIntensities [200, 100] 44100 2048 =
      (calculateBandIntensity [200, 100] (bandBinRange 44100 2048 80 400).1 (bandBinRange 44100 2048 80 400).2,
       calculateBandIntensity [200, 100] (bandBinRange 44100 2048 400 2000).1 (bandBinRange 44100 2048 400 2000).2,
       calculateBandIntensity [200, 100] (bandBinRange 44100 2048 2000 8000).1 (bandBinRange 44100 2048 2000 8000).2,
       calculateBandIntensity [200, 100] (bandBinRange 44100 2048 8000 22050).1 (bandBinRange 44100 2048 8000 22050).2) ∧
    (0 ≤ calculateBandIntensity [200, 100] (bandBinRange 44100 2048 80 400).1 (bandBinRange 44100 2048 80 400).2 ∧
      calculateBandIntensity [200, 100] (bandBinRange 44100 2048 80 400).1 (bandBinRange 44100 2048 80 400).2 ≤ 1) ∧
    calculateOverallIntensity [200, 100] =
      (([200, 100].map (fun (x : ℕ) => (x : ℚ) / 255)).sum) / ([200, 100] : List ℕ).length :=
  c9_band_mapping_amended 44100 2048 [200, 100] 80 400 (by decide) (by decide)

/-- C6: with a known total duration of 2 s and a 4-event sequence, both
text-path schedulers assign onsets 0, 0.5, 1.0, 1.5 (each event gets
`totalDuration / count`), and the terminal return-to-neutral timer fires
at 1.9 s resp. 1.95 s — at or before 1.95 s, never after. -/
theorem c6_four_event_schedule_offsets :
    startSimpleNonIntrusiveLipSync 4 2 =
      { offsets := [0, 1/2, 1, 3/2], transitionDuration := 9/50,
        resetOffset := 19/10, resetDuration := 1/2 } ∧
    startLipSyncWithAudioDuration 4 2 =
      { offsets := [0, 1/2, 1, 3/2], transitionDuration := 2/25,
        resetOffset := 39/20, resetDuration := 1/10 } ∧
    (19/10 : ℚ) ≤ 39/20 ∧ (39/20 : ℚ) ≤ 39/20 := by
  refine ⟨?_, ?_, by norm_num, le_refl _⟩
  · norm_num [startSimpleNonIntrusiveLipSync, List.range_succ, min_def]
  · norm_num [startLipSyncWithAudioDuration, List.range_succ, min_def, max_def]

/-- Setting one entry of a unit-interval list to a unit-interval value
keeps every element in the unit interval. -/
theorem set_unit {l : List ℚ} {v : ℚ} (hl : ∀ w ∈ l, 0 ≤ w ∧ w ≤ 1)
    (hv : 0 ≤ v ∧ v ≤ 1) (i : ℕ) : ∀ w ∈ l.set i v, 0 ≤ w ∧ w ≤ 1 := by
  intro w hw
  rcases mem_set_cases hw with h | rfl
  · exact hl w h
  · exact hv

/-- One frame of `smoothTransitionToMorphTarget` writes only unit-interval
weights (given unit-interval start weights and eased progress in [0,1])
and never changes the influence array's length. -/
theorem smoothTransitionFrame_unit (dict : List (String × ℕ)) (startWeights : List ℚ)
    (phoneme : String) (eased : ℚ)
    (hsw : ∀ w ∈ startWeights, 0 ≤ w ∧ w ≤ 1) (he0 : 0 ≤ eased) (he1 : eased ≤ 1) :
    (∀ w ∈ smoothTransitionFrame dict startWeights phoneme eased, 0 ≤ w ∧ w ≤ 1) ∧
    (smoothTransitionFrame dict startWeights phoneme eased).length = startWeights.length := by
  have hvd := pdGetVisemeData_intensity_unit phoneme
  have hz : ∀ w ∈ startWeights.map (fun _ => (0 : ℚ)), 0 ≤ w ∧ w ≤ 1 := by
    intro w hw
    rcases List.mem_map.mp hw with ⟨_, _, rfl⟩
    norm_num
  have hzlen : (startWeights.map (fun _ => (0 : ℚ))).length = startWeights.length :=
    List.length_map _ _
  have hv1 : 0 ≤ min 1 ((pdGetVisemeData phoneme).intensity * (12/10)) ∧
      min 1 ((pdGetVisemeData phoneme).intensity * (12/10)) ≤ 1 :=
    ⟨le_min (by norm_num) (by nlinarith [hvd.1]), min_le_left _ _⟩
  have hv2 : 0 ≤ min 1 ((pdGetVisemeData phoneme).intensity * (8/10)) ∧
      min 1 ((pdGetVisemeData phoneme).intensity * (8/10)) ≤ 1 :=
    ⟨le_min (by norm_num) (by nlinarith [hvd.1]), min_le_left _ _⟩
  simp only [smoothTransitionFrame]
  cases hp : morphLookup dict (pdGetVisemeData phoneme).primary with
  | none =>
    simp only [hp]
    cases hsec : (pdGetVisemeData phoneme).secondary with
    | none => exact ⟨hz, hzlen⟩
    | some s2 =>
      cases hq : morphLookup dict s2 with
      | none => simp only [hq]; exact ⟨hz, hzlen⟩
      | some idx =>
        simp only [hq]
        have hgd := getD_unit hsw idx
        have hval := interp_unit hgd.1 hgd.2 hv2.1 hv2.2 he0 he1
        exact ⟨set_unit hz hval idx, by simp [hzlen]⟩
  | some pidx =>
    simp only [hp]
    have hgdp := getD_unit hsw pidx
    have hvalp := interp_unit hgdp.1 hgdp.2 hv1.1 hv1.2 he0 he1
    have hj1 := set_unit hz hvalp pidx
    cases hsec : (pdGetVisemeData phoneme).secondary with
    | none => exact ⟨hj1, by simp [hzlen]⟩
    | some s2 =>
      cases hq : morphLookup dict s2 with
      | none => simp only [hq]; exact ⟨hj1, by simp [hzlen]⟩
      | some idx =>
        simp only [hq]
        have hgd := getD_unit hsw idx
        have hval := interp_unit hgd.1 hgd.2 hv2.1 hv2.2 he0 he1
        exact ⟨set_unit hj1 hval idx, by simp [hzlen]⟩

/-- `applyVisemeInRealTime` writes only unit-interval weights for
unit-interval intensity and confidence, and never changes the influence
array's length. -/
theorem applyVisemeInRealTime_unit (dict : List (String × ℕ)) (infl : List ℚ)
    (pt st : Option String) (i c : ℚ)
    (hin : ∀ w ∈ infl, 0 ≤ w ∧ w ≤ 1)
    (hi : 0 ≤ i ∧ i ≤ 1) (hc : 0 ≤ c ∧ c ≤ 1) :
    (∀ w ∈ applyVisemeInRealTime dict infl
        { primaryTarget := pt, secondaryTarget := st, intensity := i, confidence := c },
      0 ≤ w ∧ w ≤ 1) ∧
    (applyVisemeInRealTime dict infl
        { primaryTarget := pt, secondaryTarget := st, intensity := i, confidence := c }).length =
      infl.length := by
  have hic : 0 ≤ i * c ∧ i * c ≤ 1 :=
    ⟨mul_nonneg hi.1 hc.1, by nlinarith [hi.1, hi.2, hc.1, hc.2]⟩
  have hic7 : 0 ≤ i * c * (7/10) ∧ i * c * (7/10) ≤ 1 :=
    ⟨mul_nonneg hic.1 (by norm_num), by nlinarith [hic.1, hic.2]⟩
  simp only [applyVisemeInRealTime]
  cases pt with
  | none =>
    cases st with
    | none => refine ⟨hin, rfl⟩
    | some t2 =>
      cases hq : morphLookup dict t2 with
      | none => simp only [hq]; exact ⟨hin, trivial⟩
      | some idx => simp only [hq]; exact ⟨set_unit hin hic7 idx, List.length_set _ _ _⟩
  | some t =>
    cases hp : morphLookup dict t with
    | none =>
      simp only [hp]
      cases st with
      | none => refine ⟨hin, rfl⟩
      | some t2 =>
        cases hq : morphLookup dict t2 with
        | none => simp only [hq]; exact ⟨hin, trivial⟩
        | some idx => simp only [hq]; exact ⟨set_unit hin hic7 idx, List.length_set _ _ _⟩
    | some pidx =>
      simp only [hp]
      have h1 := set_unit hin hic pidx
      cases st with
      | none => exact ⟨h1, List.length_set _ _ _⟩
      | some t2 =>
        cases hq : morphLookup dict t2 with
        | none => simp only [hq]; exact ⟨h1, List.length_set _ _ _⟩
        | some idx =>
          simp only [hq]
          refine ⟨set_unit h1 hic7 idx, ?_⟩
          rw [List.length_set, List.length_set]

/-- C1: every weight written to a morph-target influence on either path
lies in [0,1] — on the text path one `smoothTransitionToMorphTarget`
frame (whose eased progress `sin(p·π)` lies in [0,1] for `p ∈ [0,1]`, as
the last conjunct states), and on the live path `applyVisemeInRealTime`
fed by `detectVisemeFromAudio` — and the influence array's length never
changes, so entries for BlendShapeIds outside the mesh's morph-target
dictionary are never created (targets absent from the dictionary are
skipped inside both writers). -/
theorem c1_blend_weights_unit_interval (dict : List (String × ℕ))
    (startWeights infl : List ℚ) (phoneme : String) (eased : ℚ)
    (pt st : Option String) (data : List ℕ) (p : ℝ)
    (hsw : ∀ w ∈ startWeights, 0 ≤ w ∧ w ≤ 1)
    (hin : ∀ w ∈ infl, 0 ≤ w ∧ w ≤ 1)
    (he0 : 0 ≤ eased) (he1 : eased ≤ 1) (hp0 : 0 ≤ p) (hp1 : p ≤ 1) :
    (∀ w ∈ smoothTransitionFrame dict startWeights phoneme eased, 0 ≤ w ∧ w ≤ 1) ∧
    (smoothTransitionFrame dict startWeights phoneme eased).length = startWeights.length ∧
    (∀ w ∈ applyVisemeInRealTime dict infl
        { primaryTarget := pt, secondaryTarget := st,
          intensity := (detectVisemeFromAudio data).intensity,
          confidence := (detectVisemeFromAudio data).confidence },
      0 ≤ w ∧ w ≤ 1) ∧
    (applyVisemeInRealTime dict infl
        { primaryTarget := pt, secondaryTarget := st,
          intensity := (detectVisemeFromAudio data).intensity,
          confidence := (detectVisemeFromAudio data).confidence }).length = infl.length ∧
    (0 ≤ Real.sin (p * Real.pi) ∧ Real.sin (p * Real.pi) ≤ 1) := by
  have h1 := smoothTransitionFrame_unit dict startWeights phoneme eased hsw he0 he1
  have hd := detectVisemeFromAudio_unit data
  have h2 := applyVisemeInRealTime_unit dict infl pt st
    (detectVisemeFromAudio data).intensity (detectVisemeFromAudio data).confidence
    hin hd.1 hd.2
  refine ⟨h1.1, h1.2, h2.1, h2.2, ?_, Real.sin_le_one _⟩
  apply Real.sin_nonneg_of_nonneg_of_le_pi
  · exact mul_nonneg hp0 Real.pi_pos.le
  · nlinarith [Real.pi_pos]

/-- Witness for C1 at a concrete dictionary, weight vectors, spectrum and
progress value. -/
theorem c1_witness :
    (∀ w ∈ smoothTransitionFrame [("Ah", 0), ("Jaw_Open", 1)] [1/2, 0] "AA" 1,
      0 ≤ w ∧ w ≤ 1) ∧
    (smoothTransitionFrame [("Ah", 0), ("Jaw_Open", 1)] [1/2, 0] "AA" 1).length =
      ([1/2, 0] : List ℚ).length ∧
    (∀ w ∈ applyVisemeInRealTime [("Ah", 0), ("Jaw_Open", 1)] [1/2, 0]
        { primaryTarget := some "Ah", secondaryTarget := some "Jaw_Open",
          intensity := (detectVisemeFromAudio [255, 0, 3]).intensity,
          confidence := (detectVisemeFromAudio [255, 0, 3]).confidence },
      0 ≤ w ∧ w ≤ 1) ∧
    (applyVisemeInRealTime [("Ah", 0), ("Jaw_Open", 1)] [1/2, 0]
        { primaryTarget := some "Ah", secondaryTarget := some "Jaw_Open",
          intensity := (detectVisemeFromAudio [255, 0, 3]).intensity,
          confidence := (detectVisemeFromAudio [255, 0, 3]).confidence }).length =
      ([1/2, 0] : List ℚ).length ∧
    (0 ≤ Real.sin ((1/2 : ℝ) * Real.pi) ∧ Real.sin ((1/2 : ℝ) * Real.pi) ≤ 1) :=
  c1_blend_weights_unit_interval [("Ah", 0), ("Jaw_Open", 1)] [1/2, 0] [1/2, 0] "AA" 1
    (some "Ah") (some "Jaw_Open") [255, 0, 3] (1/2)
    (by intro w hw; simp only [List.mem_cons, List.not_mem_nil, or_false] at hw
        rcases hw with rfl | rfl <;> norm_num)
    (by intro w hw; simp only [List.mem_cons, List.not_mem_nil, or_false] at hw
        rcases hw with rfl | rfl <;> norm_num)
    (by norm_num) (by norm_num) (by norm_num) (by norm_num)

/-- C2: evaluating the engine model on a concrete run refutes the claim.
Session 1 (one phoneme over 2 s) starts its transition; one animation
frame later its `requestAnimationFrame` loop has written weights once
(write log `[1]`).  Session 2 then starts: the session counter is 2, all
pending `setTimeout` entries belong to session 2 (the tracked timers of
session 1 were cleared), but session 1's transition loop is still in the
animation-frame queue, and on the next frame it performs another weight
write — the log becomes `[1, 1]`, a weight application from the
superseded session after the new one started, so such callbacks are not
no-ops. -/
theorem c2_stale_raf_writes_after_new_session :
    traceStart2.sessionCount = 2 ∧
    traceStart2.writeLog = [1] ∧
    traceStart2.pending.map (fun e => sessionOf e.2.2) = [2, 2] ∧
    traceStart2.rafQueue.map sessionOf = [1] ∧
    traceFrame2.writeLog = [1, 1] := by
  have h1 : traceStart1 = ⟨0, 2,
      [(0, 0, Callback.phonemeStart 1 "AA" (9/50)), (1, 19/10, Callback.neutralStart 1 (1/2))],
      [0, 1], [], 1, []⟩ := by
    norm_num [traceStart1, startSimpleOp, clearLipSyncTimeouts, scheduleTimeout, initialEngine,
      min_def, List.enum, List.enumFrom]
  have h2 : traceTimeout1 = ⟨0, 2,
      [(1, 19/10, Callback.neutralStart 1 (1/2))],
      [0, 1], [Callback.rafTransition 1 "AA" 0 (9/50)], 1, []⟩ := by
    show fireTimeoutId traceStart1 0 = _
    rw [h1]
    norm_num [fireTimeoutId, runCallback, List.find?, List.filter]
    rfl
  have h3 : traceFrame1 = ⟨1/100, 2,
      [(1, 19/10, Callback.neutralStart 1 (1/2))],
      [0, 1], [Callback.rafTransition 1 "AA" 0 (9/50)], 1, [1]⟩ := by
    show runFrame (advanceTo traceTimeout1 (1/100)) = _
    rw [h2]
    norm_num [advanceTo, runFrame, runCallback]
  have h4 : traceStart2 = ⟨1/100, 4,
      [(2, 1/100, Callback.phonemeStart 2 "AA" (9/50)), (3, 191/100, Callback.neutralStart 2 (1/2))],
      [2, 3], [Callback.rafTransition 1 "AA" 0 (9/50)], 2, [1]⟩ := by
    show startSimpleOp traceFrame1 ["AA"] 2 = _
    rw [h3]
    norm_num [startSimpleOp, clearLipSyncTimeouts, scheduleTimeout,
      min_def, List.enum, List.enumFrom, List.filter]
  have h5 : traceFrame2 = ⟨2/100, 4,
      [(2, 1/100, Callback.phonemeStart 2 "AA" (9/50)), (3, 191/100, Callback.neutralStart 2 (1/2))],
      [2, 3], [Callback.rafTransition 1 "AA" 0 (9/50)], 2, [1, 1]⟩ := by
    show runFrame (advanceTo traceStart2 (2/100)) = _
    rw [h4]
    norm_num [advanceTo, runFrame, runCallback]
  rw [h4, h5]
  refine ⟨rfl, rfl, by simp [sessionOf], by simp [sessionOf], rfl⟩

/-- C5 counterexample: `tokenize("she")` yields the phoneme-code sequence
[SH, EH] in both tokenizers — the final code is EH (whose morph target is
the `EE` shape), not the claimed EE — so the claimed code sequence
[SH, EE] is wrong (though the digraph part holds: it is not [S, H, EE]
either). -/
theorem c5_tokenize_she_yields_sh_eh :
    pdWordToPhonemes "she".toList = ["SH", "EH"] ∧
    (proWordToPhonemes "she".toList).map Prod.fst = ["SH", "EH"] ∧
    (["SH", "EH"] : List String) ≠ ["SH", "EE"] ∧
    (["SH", "EH"] : List String) ≠ ["S", "H", "EE"] := by
  exact ⟨by decide, by decide, by decide, by decide⟩

/-- C5 (amended): `tokenize("she")` matches the digraph "sh" before the
single character "s" in both tokenizers and yields the phoneme-code
sequence [SH, EH] — two codes, the digraph first — whose morph targets
are S_Z and EE; in the `ProfessionalLipSyncSystem`, whenever any
two-character pattern matches at the current position it is taken (with
length 2) before the single-character table is consulted. -/
theorem c5_tokenize_she_digraph_first (rem : List Char) (p : List Char × String × String)
    (hfind : proPatterns.find? (fun q => listStartsWith q.1 rem) = some p) :
    pdWordToPhonemes "she".toList = ["SH", "EH"] ∧
    (proWordToPhonemes "she".toList).map (fun m => m.1) = ["SH", "EH"] ∧
    (proWordToPhonemes "she".toList).map (fun m => m.2.1) = ["S_Z", "EE"] ∧
    proExtractNextPhoneme "she".toList = some ⟨"SH", "S_Z", 2, 15/100⟩ ∧
    proExtractNextPhoneme rem = some ⟨p.2.1, p.2.2, 2, 15/100⟩ ∧
    pdExtractNextPhoneme "she".toList = some ("SH", 2) := by
  refine ⟨by decide, by decide, by decide, by rfl, ?_, by rfl⟩
  unfold proExtractNextPhoneme
  rw [hfind]

/-- Witness for C5 at the word "she" itself. -/
theorem c5_witness :
    pdWordToPhonemes "she".toList = ["SH", "EH"] ∧
    (proWordToPhonemes "she".toList).map (fun m => m.1) = ["SH", "EH"] ∧
    (proWordToPhonemes "she".toList).map (fun m => m.2.1) = ["S_Z", "EE"] ∧
    proExtractNextPhoneme "she".toList = some ⟨"SH", "S_Z", 2, 15/100⟩ ∧
    proExtractNextPhoneme "she".toList = some ⟨(['s','h'], "SH", "S_Z").2.1, (['s','h'], "SH", "S_Z").2.2, 2, 15/100⟩ ∧
    pdExtractNextPhoneme "she".toList = some ("SH", 2) :=
  c5_tokenize_she_digraph_first "she".toList (['s','h'], "SH", "S_Z") (by rfl)

/-- C8 counterexample: the `ProfessionalLipSyncSystem` fallback descriptor
for an unknown phoneme code carries baseIntensity 0.5, not the claimed
"roughly 0.2-0.3" (its secondary is null as claimed). -/
theorem c8_professional_fallback_intensity_half :
    proGetVisemeData "QQ" =
      { primary := "Ah", secondary := none, intensity := some (5/10), jawIntensity := 3/10 } ∧
    ¬((5/10 : ℚ) ≤ 3/10) := by
  exact ⟨by rfl, by norm_num⟩

/-- C8 (amended): for every phoneme code absent from the viseme tables the
lookups return their predefined neutral descriptors without failing —
secondary null with baseIntensity 0.3 in the deploy `PhonemeDetector`
(within the claimed 0.2-0.3) but 0.5 in `ProfessionalLipSyncSystem`'s
inline default — and a viseme naming a BlendShapeId absent from the
mesh's morph-target dictionary has that channel alone skipped while the
rest of the vector is applied, with the influence array's length
unchanged (no entry is ever created). -/
theorem c8_unknown_lookup_neutral_and_skip (code t s2 : String)
    (dict : List (String × ℕ)) (infl : List ℚ) (i c : ℚ) (sIdx : ℕ)
    (hpro : ∀ p ∈ audioVisemeMapping, p.1 ≠ code)
    (hpd : ∀ p ∈ visemeSystem, p.1 ≠ code)
    (hT : morphLookup dict t = none)
    (hS : morphLookup dict s2 = some sIdx) :
    proGetVisemeData code =
      { primary := "Ah", secondary := none, intensity := some (5/10), jawIntensity := 3/10 } ∧
    pdGetVisemeData code = { primary := "Ah", secondary := none, intensity := 3/10 } ∧
    ((1/5 : ℚ) ≤ (pdGetVisemeData code).intensity ∧ (pdGetVisemeData code).intensity ≤ 3/10) ∧
    applyVisemeInRealTime dict infl
        { primaryTarget := some t, secondaryTarget := some s2, intensity := i, confidence := c } =
      infl.set sIdx (i * c * (7/10)) ∧
    (applyVisemeInRealTime dict infl
        { primaryTarget := some t, secondaryTarget := some s2, intensity := i, confidence := c }).length =
      infl.length := by
  have h1 : proGetVisemeData code =
      { primary := "Ah", secondary := none, intensity := some (5/10), jawIntensity := 3/10 } := by
    unfold proGetVisemeData
    rw [alookup_none hpro]
  have h2 : pdGetVisemeData code = { primary := "Ah", secondary := none, intensity := 3/10 } := by
    unfold pdGetVisemeData
    rw [alookup_none hpd]
  have h4 : applyVisemeInRealTime dict infl
      { primaryTarget := some t, secondaryTarget := some s2, intensity := i, confidence := c } =
      infl.set sIdx (i * c * (7/10)) := by
    unfold applyVisemeInRealTime
    simp only [hT, hS]
  refine ⟨h1, h2, ?_, h4, ?_⟩
  · rw [h2]
    norm_num
  · rw [h4]
    exact List.length_set infl sIdx _

/-- Witness for C8 at the unknown code "QQ", an unknown blend-shape id and
a one-entry dictionary. -/
theorem c8_witness :
    proGetVisemeData "QQ" =
      { primary := "Ah", secondary := none, intensity := some (5/10), jawIntensity := 3/10 } ∧
    pdGetVisemeData "QQ" = { primary := "Ah", secondary := none, intensity := 3/10 } ∧
    ((1/5 : ℚ) ≤ (pdGetVisemeData "QQ").intensity ∧ (pdGetVisemeData "QQ").intensity ≤ 3/10) ∧
    applyVisemeInRealTime [("Ah", 0)] [1/2]
        { primaryTarget := some "Nope", secondaryTarget := some "Ah", intensity := 1/2, confidence := 1 } =
      ([1/2] : List ℚ).set 0 (1/2 * 1 * (7/10)) ∧
    (applyVisemeInRealTime [("Ah", 0)] [1/2]
        { primaryTarget := some "Nope", secondaryTarget := some "Ah", intensity := 1/2, confidence := 1 }).length =
      ([1/2] : List ℚ).length :=
  c8_unknown_lookup_neutral_and_skip "QQ" "Nope" "Ah" [("Ah", 0)] [1/2] (1/2) 1 0
    (by decide) (by decide) (by rfl) (by rfl)

/-- C3 counterexample: `ProfessionalBabyCharacter.stopLipSync` calls
`resetToNeutral`, which zeroes every influence in the same tick: from the
non-neutral state [0.8] the very next applied vector is already [0] — an
instantaneous jump to zero from a non-neutral state. -/
theorem c3_professional_stop_instant_zero :
    professionalStopWeights [4/5] = [0] ∧ ¬((4/5 : ℚ) = 0) := by
  exact ⟨by rfl, by norm_num⟩

/-- C3 (amended): `InteractiveBabyCharacter.stopLipSync` (fade duration
0.2 s) drives each weight above the 0.05 floor along a strictly
decreasing trajectory `w0·(1-t/0.2)⁴` that starts exactly at `w0` (no
initial jump) and reaches 0 at the fade duration; weights at or below
0.05 are written as 0 immediately.  `ProfessionalBabyCharacter.stopLipSync`
instead zeroes all weights instantaneously from any state (see the
counterexample). -/
theorem c3_cancel_fade_strictly_decreasing (w0 t1 t2 t : ℚ)
    (hw : 1/20 < w0)
    (ht1 : 0 ≤ t1) (h12 : t1 < t2) (ht2 : t2 < interactiveStopFadeDuration)
    (ht : interactiveStopFadeDuration ≤ t) :
    neutralWeightAt w0 interactiveStopFadeDuration 0 = w0 ∧
    neutralWeightAt w0 interactiveStopFadeDuration t2 <
      neutralWeightAt w0 interactiveStopFadeDuration t1 ∧
    neutralWeightAt w0 interactiveStopFadeDuration t = 0 ∧
    (∀ wsmall u : ℚ, wsmall ≤ 1/20 →
      neutralWeightAt wsmall interactiveStopFadeDuration u = 0) := by
  have hd : interactiveStopFadeDuration = 2/10 := rfl
  have hval : ∀ u : ℚ, 0 ≤ u → u < 2/10 →
      neutralWeightAt w0 interactiveStopFadeDuration u = w0 * (1 - 5*u)^4 := by
    intro u hu0 hu1
    simp only [neutralWeightAt, easeOutQuart, hd]
    rw [if_pos hw]
    have h5 : u / (2/10) = 5*u := by ring
    rw [h5, min_eq_left (by linarith)]
    ring
  have hw0 : 0 < w0 := lt_trans (by norm_num) hw
  rw [hd] at ht2 ht
  refine ⟨?_, ?_, ?_, ?_⟩
  · rw [hval 0 le_rfl (by norm_num)]
    ring
  · rw [hval t1 ht1 (lt_trans h12 ht2), hval t2 (le_trans ht1 h12.le) ht2]
    have hpow : (1 - 5*t2)^4 < (1 - 5*t1)^4 :=
      pow_lt_pow_left₀ (by linarith) (by linarith) (by norm_num)
    exact mul_lt_mul_of_pos_left hpow hw0
  · simp only [neutralWeightAt, easeOutQuart, hd]
    rw [if_pos hw]
    have h5 : t / (2/10) = 5*t := by ring
    rw [h5, min_eq_right (by linarith)]
    ring
  · intro wsmall u hsmall
    simp only [neutralWeightAt]
    rw [if_neg (not_lt.mpr hsmall)]

/-- `ceilDiv` helper: `n ≤ m * ⌈n/m⌉`. -/
theorem le_mul_ceilDiv {n m : ℕ} (hm : 0 < m) : n ≤ m * ceilDiv n m := by
  unfold ceilDiv
  rcases Nat.eq_zero_or_pos n with rfl | hn
  · simp
  have hmod : (n + m - 1) % m < m := Nat.mod_lt _ hm
  have hdm : m * ((n + m - 1) / m) + (n + m - 1) % m = n + m - 1 := Nat.div_add_mod _ _
  set q := (n + m - 1) / m
  set r := (n + m - 1) % m
  generalize hK : m * q = K at hdm ⊢
  omega

/-- `ceilDiv` helper: `n ≤ s·m` implies `⌈n/s⌉ ≤ m`. -/
theorem ceilDiv_le {n s m : ℕ} (hs : 0 < s) (h : n ≤ s * m) : ceilDiv n s ≤ m := by
  unfold ceilDiv
  rw [Nat.div_le_iff_le_mul_add_pred hs]
  generalize hK : s * m = K at h ⊢
  omega

/-- `ceilDiv` helper: positivity. -/
theorem one_le_ceilDiv {n m : ℕ} (hm : 0 < m) (hn : 0 < n) : 1 ≤ ceilDiv n m := by
  unfold ceilDiv
  rw [Nat.le_div_iff_mul_le hm]
  omega

/-- The decimation loop keeps exactly the elements at indices
`0, step, 2·step, …` of its input. -/
theorem decimateAux_getElem? {α : Type} (step : ℕ) (hs : 1 ≤ step) :
    ∀ (fuel : ℕ) (ps : List α), ps.length ≤ fuel →
      ∀ i, (decimateAux step fuel ps)[i]? = ps[i * step]? := by
  intro fuel
  induction fuel with
  | zero =>
    intro ps hps i
    have hnil : ps = [] := List.eq_nil_of_length_eq_zero (Nat.le_zero.mp hps)
    subst hnil
    simp [decimateAux]
  | succ fuel ih =>
    intro ps hps i
    cases ps with
    | nil => simp [decimateAux]
    | cons a rest =>
      simp only [decimateAux]
      cases i with
      | zero => simp
      | succ i =>
        have hlen : (rest.drop (step - 1)).length ≤ fuel := by
          simp only [List.length_drop]
          simp only [List.length_cons] at hps
          omega
        have harith : (i + 1) * step = ((step - 1) + i * step) + 1 := by
          obtain ⟨k, rfl⟩ : ∃ k, step = k + 1 := ⟨step - 1, by omega⟩
          simp only [Nat.add_sub_cancel]
          ring
        rw [List.getElem?_cons_succ, ih _ hlen i, List.getElem?_drop, harith,
          List.getElem?_cons_succ]

/-- `decimate` element characterization. -/
theorem decimate_getElem? {α : Type} (ps : List α) (step : ℕ) (hs : 1 ≤ step) (i : ℕ) :
    (decimate ps step)[i]? = ps[i * step]? :=
  decimateAux_getElem? step hs ps.length ps le_rfl i

/-- `decimate` length bound: if `ps.length ≤ s·m` then at most `m`
elements survive stride-`s` decimation. -/
theorem decimate_length_le {α : Type} (ps : List α) (s m : ℕ) (hs : 1 ≤ s)
    (h : ps.length ≤ s * m) : (decimate ps s).length ≤ m := by
  by_contra hc
  push_neg at hc
  have h1 : (decimate ps s)[m]? = ps[m * s]? := decimate_getElem? ps s hs m
  have h2 : ps[m * s]? = none := by
    rw [List.getElem?_eq_none_iff, Nat.mul_comm]
    exact h
  have h3 : (decimate ps s)[m]? ≠ none := by
    rw [ne_eq, List.getElem?_eq_none_iff]
    omega
  exact h3 (h1.trans h2)

/-- The padding loop adds exactly `k` duplicates when the event list is
non-empty (every random index is valid). -/
theorem padRandom_length {α : Type} (pick : ℕ → ℕ) (ps : List α) (hne : ps ≠ []) (k : ℕ) :
    (padRandom pick ps k).length = k := by
  induction k with
  | zero => rfl
  | succ k ih =>
    unfold padRandom at ih ⊢
    rw [List.range_succ, List.filterMap_append, List.length_append, ih]
    have hlen : 0 < ps.length := List.length_pos.mpr hne
    have hmod : pick k % ps.length < ps.length := Nat.mod_lt _ hlen
    rcases hx : ps[pick k % ps.length]? with _ | a
    · rw [List.getElem?_eq_none_iff] at hx
      omega
    · simp [hx]

/-- C7 counterexample: for the 5-character text "hello" (no known
duration), `minEvents = 8` exceeds `maxEvents = 7`; the extractor pads
the 5 raw events up to 8, so the returned count does not lie within
`[minEvents, maxEvents]`. -/
theorem c7_hello_count_exceeds_max :
    (pdExtractPhonemes (fun _ => 0) "hello".toList).length = 8 ∧
    minPhonemesFor ("hello".toList).length = 8 ∧
    maxPhonemesFor ("hello".toList).length = 7 ∧
    ¬((pdExtractPhonemes (fun _ => 0) "hello".toList).length ≤
        maxPhonemesFor ("hello".toList).length) := by
  exact ⟨by decide, by decide, by decide, by decide⟩

/-- C7 (amended): with no known duration, a too-short event sequence is
padded by duplicating randomly chosen existing events up to exactly
`minEvents(textLength)` (which can exceed `maxEvents(textLength)` for
short texts, so the count need not lie in the claimed interval); a count
already within `[minEvents, maxEvents]` is returned unchanged; and a
too-long sequence (with at least `minEvents` events) is reduced by
fixed-stride decimation over the whole sequence — element `i` of the
result is element `i·⌈count/maxEvents⌉` of the input, never a one-ended
truncation — to at most `maxEvents` events. -/
theorem c7_normalize_count_characterization (pick : ℕ → ℕ) (ps : List PhonemeEventRec)
    (textLen : ℕ) (text : List Char)
    (hne : ps ≠ []) (hmax : 0 < maxPhonemesFor textLen) :
    pdExtractPhonemes pick text = normalizePhonemeCount pick (pdBaseEvents text) text.length ∧
    (ps.length < minPhonemesFor textLen →
      (normalizePhonemeCount pick ps textLen).length = minPhonemesFor textLen) ∧
    (minPhonemesFor textLen ≤ ps.length → ps.length ≤ maxPhonemesFor textLen →
      normalizePhonemeCount pick ps textLen = ps) ∧
    (minPhonemesFor textLen ≤ ps.length → maxPhonemesFor textLen < ps.length →
      (normalizePhonemeCount pick ps textLen).length ≤ maxPhonemesFor textLen ∧
      ∀ i, (normalizePhonemeCount pick ps textLen)[i]? =
        ps[i * ceilDiv ps.length (maxPhonemesFor textLen)]?) := by
  refine ⟨rfl, ?_, ?_, ?_⟩
  · intro hlt
    unfold normalizePhonemeCount
    rw [if_pos hlt, List.length_append, padRandom_length pick ps hne]
    omega
  · intro h1 h2
    unfold normalizePhonemeCount
    rw [if_neg (not_lt.mpr h1), if_neg (not_lt.mpr h2)]
  · intro h1 h2
    unfold normalizePhonemeCount
    rw [if_neg (not_lt.mpr h1), if_pos h2]
    have hstep : 1 ≤ ceilDiv ps.length (maxPhonemesFor textLen) :=
      one_le_ceilDiv hmax (by omega)
    have hle : ps.length ≤ ceilDiv ps.length (maxPhonemesFor textLen) * maxPhonemesFor textLen := by
      have hm := le_mul_ceilDiv (n := ps.length) hmax
      rw [Nat.mul_comm] at hm
      exact hm
    exact ⟨decimate_length_le ps _ _ hstep hle, fun i => decimate_getElem? ps _ hstep i⟩

/-- Witness for C7 on the raw event list of "hello" (5 events, padded to
the minimum 8). -/
theorem c7_witness :
    (normalizePhonemeCount (fun _ => 0) (pdBaseEvents "hello".toList) 5).length =
      minPhonemesFor 5 :=
  ((c7_normalize_count_characterization (fun _ => 0) (pdBaseEvents "hello".toList) 5 []
    (by decide) (by decide)).2.1) (by decide)

/-- Witness for C3 with starting weight 0.5 sampled at 0.05 s and 0.1 s
and at the fade end. -/
theorem c3_witness :
    neutralWeightAt (1/2) interactiveStopFadeDuration 0 = 1/2 ∧
    neutralWeightAt (1/2) interactiveStopFadeDuration (1/10) <
      neutralWeightAt (1/2) interactiveStopFadeDuration (1/20) ∧
    neutralWeightAt (1/2) interactiveStopFadeDuration (1/5) = 0 ∧
    (∀ wsmall u : ℚ, wsmall ≤ 1/20 →
      neutralWeightAt wsmall interactiveStopFadeDuration u = 0) :=
  c3_cancel_fade_strictly_decreasing (1/2) (1/20) (1/10) (1/5)
    (by norm_num) (by norm_num) (by norm_num) (by norm_num [interactiveStopFadeDuration])
    (by norm_num [interactiveStopFadeDuration])

end BabySync
